import Mathlib

/-!
Verification of the SurveyPlatform core pipeline (backend/core) against its
natural-language specification.

The Python source is shallowly embedded: JSON values become an inductive
`Json` type, Python dicts become insertion-ordered association lists, Python
exceptions become an explicit `PyErr` error type threaded through `Except`,
and the mutating routines of the source become pure state-passing functions.
Machine-level concerns that cannot influence any verified claim (sha256
hashing of fingerprint payloads, Python float rounding being modelled by
exact rationals, unicode-aware lowercasing beyond ASCII) are noted where
they occur.
-/

namespace SurveyPlatform

/-- A JSON value, as handled by the Python code (dicts are modelled as
insertion-ordered association lists; numbers in the documents relevant here
are integers). -/
inductive Json where
  | null : Json
  | bool (b : Bool) : Json
  | num (n : Int) : Json
  | str (s : String) : Json
  | arr (elems : List Json) : Json
  | obj (fields : List (String × Json)) : Json

/-- Python exceptions that the embedded code can raise.  `patchError`
corresponds to the source's `JsonPatchError`; the others are builtin Python
exception classes. -/
inductive PyErr where
  | patchError (msg : String)
  | valueError
  | keyError (k : String)
  | indexError
  | typeError
  | attributeError
deriving DecidableEq

namespace Json

/-- Python `v == t` for a string constant `t` (the only whole-value
comparisons the embedded code performs against strings). -/
def isStr (v : Json) (t : String) : Bool :=
  match v with
  | .str s => s = t
  | _ => false

/-- Python `v is None` (and `v == None` on parsed JSON). -/
def isNull : Json → Bool
  | .null => true
  | _ => false

/-- Python `v == []`. -/
def isEmptyArr : Json → Bool
  | .arr [] => true
  | _ => false

/-- Python hashability of a parsed-JSON value: scalars are hashable, lists
and dicts are not (set operations on them raise `TypeError`). -/
def hashableScalar : Json → Bool
  | .arr _ => false
  | .obj _ => false
  | _ => true

/-- Python `==` restricted to hashable scalars, as used on the members of
the `seen_qids` / `seen_ss_ids` sets.  (CPython's `True == 1` numeric
cross-type equality never arises for the ids of any document considered
here and is not modelled.) -/
def scalarEq : Json → Json → Bool
  | .null, .null => true
  | .bool a, .bool b => a == b
  | .num a, .num b => a == b
  | .str a, .str b => a == b
  | _, _ => false

/-- Python truthiness of a JSON value (`bool(x)`). -/
def truthy : Json → Bool
  | .null => false
  | .bool b => b
  | .num n => n != 0
  | .str s => s != ""
  | .arr xs => !xs.isEmpty
  | .obj fs => !fs.isEmpty

/-- `d.get(k)` on a dict: first binding for `k`, if any. -/
def objGet? (fields : List (String × Json)) (k : String) : Option Json :=
  match fields.find? (fun p => p.1 = k) with
  | some p => some p.2
  | none => none

/-- `d.get(k, default)`. -/
def objGetD (fields : List (String × Json)) (k : String) (dflt : Json) : Json :=
  (objGet? fields k).getD dflt

/-- `d[k] = v`: replace the first binding for `k`, else append. -/
def objSet : List (String × Json) → String → Json → List (String × Json)
  | [], k, v => [(k, v)]
  | (k', v') :: rest, k, v =>
      if k' = k then (k, v) :: rest else (k', v') :: objSet rest k v

/-- `d.pop(k, None)`: drop the first binding for `k` (no-op when absent). -/
def objPop : List (String × Json) → String → List (String × Json)
  | [], _ => []
  | (k', v') :: rest, k =>
      if k' = k then rest else (k', v') :: objPop rest k

/-- `k in d` for a dict. -/
def objHasKey (fields : List (String × Json)) (k : String) : Bool :=
  (fields.find? (fun p => p.1 = k)).isSome

end Json

/-- Python `int(s)` on a string: optional surrounding ASCII whitespace,
optional sign, then decimal digits.  (Digit-group underscores accepted by
CPython are not modelled; no input in this development contains them.) -/
def pyParseInt (s : String) : Option Int :=
  let cs := (s.toList.dropWhile (fun c => c = ' ' || c = '\t' || c = '\n' || c = '\r'))
  let cs := (cs.reverse.dropWhile (fun c => c = ' ' || c = '\t' || c = '\n' || c = '\r')).reverse
  let (sign, digits) :=
    match cs with
    | '-' :: rest => ((-1 : Int), rest)
    | '+' :: rest => ((1 : Int), rest)
    | rest => ((1 : Int), rest)
  if digits = [] then none
  else if digits.all (fun c => c.isDigit) then
    some (sign * (Int.ofNat (digits.foldl (fun acc c => acc * 10 + (c.toNat - '0'.toNat)) 0)))
  else none

/-- Python list read `xs[i]` with negative-index wrap-around;
`IndexError` when out of range. -/
def pyListGet (xs : List Json) (i : Int) : Except PyErr Json :=
  let j : Int := if i < 0 then (xs.length : Int) + i else i
  if h : 0 ≤ j ∧ j < (xs.length : Int) then
    .ok (xs.get ⟨j.toNat, by omega⟩)
  else
    .error .indexError

/-- Python list write `xs[i] = v` with negative-index wrap-around. -/
def pyListSet (xs : List Json) (i : Int) (v : Json) : Except PyErr (List Json) :=
  let j : Int := if i < 0 then (xs.length : Int) + i else i
  if 0 ≤ j ∧ j < (xs.length : Int) then
    .ok (xs.set j.toNat v)
  else
    .error .indexError

/-- Python `xs.pop(i)` with negative-index wrap-around. -/
def pyListPop (xs : List Json) (i : Int) : Except PyErr (List Json) :=
  let j : Int := if i < 0 then (xs.length : Int) + i else i
  if 0 ≤ j ∧ j < (xs.length : Int) then
    .ok (xs.eraseIdx j.toNat)
  else
    .error .indexError

/-- Python `xs.insert(i, v)`: clamps the index, never fails. -/
def pyListInsert (xs : List Json) (i : Int) (v : Json) : List Json :=
  let j : Int := if i < 0 then max 0 ((xs.length : Int) + i) else min i (xs.length : Int)
  xs.insertIdx j.toNat v

/-- Repackage a list-producing result as a JSON array (the in-place list
mutation of the source, seen functionally). -/
def wrapArr : Except PyErr (List Json) → Except PyErr Json
  | .error e => .error e
  | .ok xs => .ok (.arr xs)

-- ---------------------------------------------------------------------------
-- JSON Patch (RFC 6902) - minimal support  [render_survey.py 30-96]
-- ---------------------------------------------------------------------------

/-- One patch operation, as a Python dict with `op.get("op")`,
`op.get("path")`, `op.get("value")` already extracted (`value` is `null`
when the key is absent, exactly as Python's `None`). -/
structure PatchOp where
  op : Option String
  path : Option String
  value : Json

/-- Python `s.startswith(pre)`. -/
def pyStartsWith (s pre : String) : Bool :=
  pre.toList.isPrefixOf s.toList

/-- Python `s.split(sep)` for a one-character separator, on character
lists: `"".split("/") == [""]`, `"a/b".split("/") == ["a","b"]`. -/
def splitCharsOn (sep : Char) : List Char → List Char → List (List Char)
  | [], acc => [acc.reverse]
  | c :: rest, acc =>
      if c = sep then acc.reverse :: splitCharsOn sep rest []
      else splitCharsOn sep rest (c :: acc)

/-- Python `s.replace(ab, r)` for a two-character pattern `ab` replaced by
the single character `r`, scanning left to right over non-overlapping
occurrences. -/
def pyReplace2 (a b r : Char) : List Char → List Char
  | [] => []
  | [c] => [c]
  | c1 :: c2 :: rest =>
      if c1 = a ∧ c2 = b then r :: pyReplace2 a b r rest
      else c1 :: pyReplace2 a b r (c2 :: rest)

/-- `~1` to `/`, then `~0` to `~`, as in `_split_pointer`. -/
def unescapeSegment (p : List Char) : String :=
  String.mk (pyReplace2 '~' '0' '~' (pyReplace2 '~' '1' '/' p))

/-- `_split_pointer` [render_survey.py 34-40]: `""` gives no segments; a
pointer not starting with `/` raises; otherwise all leading slashes are
stripped (`str.lstrip`), the rest split on `/`, and `~1`/`~0` unescaped. -/
def splitPointer (path : String) : Except PyErr (List String) :=
  if path = "" then .ok []
  else if ¬ pyStartsWith path "/" then
    .error (.patchError ("Invalid JSON pointer: " ++ path))
  else
    let stripped := path.toList.dropWhile (fun c => c = '/')
    .ok ((splitCharsOn '/' stripped []).map unescapeSegment)

/-- Navigate the intermediate segments of a pointer exactly as the loop in
`_get_parent_and_key` [render_survey.py 48-56] does, then apply `mut` to the
parent container with the raw final segment, rebuilding along the way
(Python mutates the aliased parent in place). -/
def navApply (f : Json → String → Except PyErr Json) :
    Json → List String → String → Except PyErr Json
  | parent, [], last => f parent last
  | parent, p :: rest, last =>
      match parent with
      | .arr xs =>
          match pyParseInt p with
          | none => .error .valueError
          | some idx =>
              match pyListGet xs idx with
              | .error e => .error e
              | .ok child =>
                  match navApply f child rest last with
                  | .error e => .error e
                  | .ok child' => wrapArr (pyListSet xs idx child')
      | .obj fs =>
          match Json.objGet? fs p with
          | none => .error (.keyError p)
          | some child =>
              match navApply f child rest last with
              | .error e => .error e
              | .ok child' => .ok (.obj (Json.objSet fs p child'))
      | _ => .error (.patchError ("Cannot traverse into non-container at '" ++ p ++ "'."))

/-- The `remove` branch of `apply_json_patch` [render_survey.py 76-82] acting
on the resolved parent.  For a list parent `_get_parent_and_key` converts the
final segment with `int(...)` (possible `ValueError`) and `pop` raises
`IndexError` out of range; for a dict parent `pop(key, None)` is a no-op when
absent; scalars have no `pop` attribute (`AttributeError`). -/
def mutRemove (parent : Json) (last : String) : Except PyErr Json :=
  match parent with
  | .arr xs =>
      match pyParseInt last with
      | none => .error .valueError
      | some idx => wrapArr (pyListPop xs idx)
  | .obj fs => .ok (.obj (Json.objPop fs last))
  | _ => .error .attributeError

/-- The `add` branch [render_survey.py 86-90, 94]: on a list, append when the
index equals the length, otherwise `insert`; on a dict, set the key; item
assignment on a scalar is a `TypeError`. -/
def mutAdd (value : Json) (parent : Json) (last : String) : Except PyErr Json :=
  match parent with
  | .arr xs =>
      match pyParseInt last with
      | none => .error .valueError
      | some idx =>
          if idx = (xs.length : Int) then .ok (.arr (xs ++ [value]))
          else .ok (.arr (pyListInsert xs idx value))
  | .obj fs => .ok (.obj (Json.objSet fs last value))
  | _ => .error .typeError

/-- The `replace` branch [render_survey.py 91-94]: `parent[key] = value`. -/
def mutReplace (value : Json) (parent : Json) (last : String) : Except PyErr Json :=
  match parent with
  | .arr xs =>
      match pyParseInt last with
      | none => .error .valueError
      | some idx => wrapArr (pyListSet xs idx value)
  | .obj fs => .ok (.obj (Json.objSet fs last value))
  | _ => .error .typeError

/-- Dispatch of one op once its pointer is split into segments: the
`_get_parent_and_key` guard for zero segments, then the per-op branches of
`apply_json_patch` [render_survey.py 76-94]. -/
def applyParts (doc : Json) (op : PatchOp) (parts : List String) : Except PyErr Json :=
  match parts.getLast? with
  | none => .error (.patchError "Pointer must not be empty for parent/key lookup.")
  | some last =>
      if op.op = some "remove" then
        navApply mutRemove doc parts.dropLast last
      else if op.op = some "add" then
        navApply (mutAdd op.value) doc parts.dropLast last
      else
        navApply (mutReplace op.value) doc parts.dropLast last

/-- Propagate a pointer-splitting failure, else dispatch. -/
def applyResolved (doc : Json) (op : PatchOp) : Except PyErr (List String) → Except PyErr Json
  | .error e => .error e
  | .ok parts => applyParts doc op parts

/-- Apply one patch operation [render_survey.py 66-94]. -/
def applySingleOp (doc : Json) (op : PatchOp) : Except PyErr Json :=
  if ¬ (op.op = some "add" ∨ op.op = some "replace" ∨ op.op = some "remove") then
    .error (.patchError "Unsupported op")
  else
    match op.path with
    | none => .error (.patchError "Patch op missing 'path'")
    | some path => applyResolved doc op (splitPointer path)

/-- `apply_json_patch` [render_survey.py 64-96]: fold the operations over the
document, stopping at the first exception. -/
def applyJsonPatch (doc : Json) (ops : List PatchOp) : Except PyErr Json :=
  match ops with
  | [] => .ok doc
  | op :: rest =>
      match applySingleOp doc op with
      | .error e => .error e
      | .ok doc' => applyJsonPatch doc' rest

/-- Does the intermediate-segment walk of `_get_parent_and_key` hit a
non-container (the only traversal situation the source turns into a
`JsonPatchError`)?  Index-parse failures, missing keys and out-of-range
indexes along the way are distinct Python exceptions and make this false. -/
def reachesNonContainer : Json → List String → Bool
  | _, [] => false
  | parent, p :: rest =>
      match parent with
      | .arr xs =>
          match pyParseInt p with
          | some i =>
              match pyListGet xs i with
              | .ok child => reachesNonContainer child rest
              | .error _ => false
          | none => false
      | .obj fs =>
          match Json.objGet? fs p with
          | some child => reachesNonContainer child rest
          | none => false
      | _ => true

-- ---------------------------------------------------------------------------
-- Lemmas about the patch engine
-- ---------------------------------------------------------------------------

/-- Whether a result is a raised `JsonPatchError`. -/
def isPatchError : Except PyErr α → Bool
  | .error (.patchError _) => true
  | _ => false

-- ---------------------------------------------------------------------------
-- Document normalizer  [render_survey.py 103-386]
-- ---------------------------------------------------------------------------

/-- Python substring test `needle in hay` on character lists. -/
def containsSub (needle : List Char) : List Char → Bool
  | [] => needle.isEmpty
  | c :: t => needle.isPrefixOf (c :: t) || containsSub needle t

/-- REQUIRED_TOP_LEVEL_KEYS [render_survey.py 103-110]. -/
def requiredTopLevelKeys : List String :=
  ["STUDY_METADATA", "SCREENER", "MAIN_SECTION", "DEMOGRAPHICS", "FLOW",
    "DIMENSION_COVERAGE_SUMMARY"]

/-- ALLOWED_Q_TYPES [render_survey.py 112]. -/
def allowedQTypes : List String :=
  ["single_choice", "multiple_choice", "scale", "matrix", "open_ended",
    "stimulus_display", "numeric_input", "ranking"]

/-- A normalizer-level issue [render_survey.py 15-23].  The
`issue_fingerprint` field carries the pre-hash payload
`error_code|json_path|question_id` with a `sha256:` marker; the sha256
digest applied by `_fingerprint` [115-118] is opaque to every claim and is
not modelled. -/
structure ValidationIssue where
  issue_id : String
  issue_fingerprint : String
  error_code : String
  json_path : String
  message : String
  fragment_ref : List (String × Json)
  fragment : Json

/-- Rendering of the values that can appear inside the f-strings of the
normalizer (question ids and question types are strings or None in all
relevant documents). -/
def pyStrOf : Json → String
  | .str s => s
  | .null => "None"
  | .bool b => if b then "True" else "False"
  | .num n => toString n
  | .arr _ => "[...]"
  | .obj _ => "{...}"

/-- `_fingerprint` [render_survey.py 115-118] up to the unmodelled digest:
`f"{qid or \'\'}"` renders a falsy question id as the empty string. -/
def fingerprintOf (errorCode jsonPath : String) (qid : Json) : String :=
  "sha256:" ++ errorCode ++ "|" ++ jsonPath ++ "|" ++
    (if qid.truthy then pyStrOf qid else "")

/-- `_issue_id` [render_survey.py 121-122]: `ISSUE_` plus the counter padded
to four digits. -/
def issueIdOf (counter : Nat) : String :=
  let d := Nat.repr counter
  "ISSUE_" ++ String.mk (List.replicate (4 - d.length) '0') ++ d

/-- The accumulating state of one `validate_and_normalise` run: the issue
counter, the issues in emission order, and the `seen_qids` set (a list with
`Json.scalarEq` membership; Python set semantics, order immaterial here). -/
structure NormState where
  counter : Nat
  issues : List ValidationIssue
  seen : List Json

def NormState.initial : NormState := ⟨0, [], []⟩

/-- `add_issue` [render_survey.py 130-151]. -/
def addIssue (st : NormState) (errorCode jsonPath message : String)
    (fragmentRef : List (String × Json)) (fragment : Json) : NormState :=
  let counter := st.counter + 1
  let qid := Json.objGetD fragmentRef "question_id" .null
  { st with
    counter := counter
    issues := st.issues ++
      [⟨issueIdOf counter, fingerprintOf errorCode jsonPath qid, errorCode,
        jsonPath, message, fragmentRef, fragment⟩] }

/-- `q.get(f) in (None, "")` for the hard-required-field check. -/
def isNoneOrEmptyStr (v : Json) : Bool :=
  v.isNull || v.isStr ""

/-- The hard-required-field loop of `norm_question` [render_survey.py
168-177]: flags `question_id`, `question_text`, `question_type` when absent,
None or the empty string. -/
def nqHardRequired (q : List (String × Json)) (path : String)
    (fref : List (String × Json)) (st : NormState) : NormState :=
  ["question_id", "question_text", "question_type"].foldl
    (fun st f =>
      let bad :=
        match Json.objGet? q f with
        | none => true
        | some v => isNoneOrEmptyStr v
      if bad then
        addIssue st "E_QUESTION_MISSING_REQUIRED" (path ++ "/" ++ f)
          ("Question missing required field '" ++ f ++ "'.") fref (.obj q)
      else st)
    st

/-- The default-filling block of `norm_question` [render_survey.py 179-192]. -/
def nqDefaults (q : List (String × Json)) : List (String × Json) :=
  let q :=
    match Json.objGet? q "options" with
    | some (.arr _) => q
    | _ => Json.objSet q "options" (.arr [])
  let q := if Json.objHasKey q "rows" then q else Json.objSet q "rows" .null
  let q := if Json.objHasKey q "columns" then q else Json.objSet q "columns" .null
  let q := if Json.objHasKey q "display_logic" then q else Json.objSet q "display_logic" .null
  let q := if Json.objHasKey q "piping" then q else Json.objSet q "piping" .null
  let q := if Json.objHasKey q "required" then q else Json.objSet q "required" (.bool true)
  if Json.objHasKey q "notes" then q else Json.objSet q "notes" .null

/-- Python repr of `sorted(ALLOWED_Q_TYPES)`, as interpolated in the
E_QUESTION_BAD_TYPE message. -/
def sortedAllowedRepr : String :=
  "['matrix', 'multiple_choice', 'numeric_input', 'open_ended', 'ranking', " ++
    "'scale', 'single_choice', 'stimulus_display']"

/-- The question_type membership check [render_survey.py 194-202]. -/
def nqTypeCheck (q : List (String × Json)) (path : String)
    (fref : List (String × Json)) (st : NormState) : NormState :=
  if allowedQTypes.any (fun t => (Json.objGetD q "question_type" .null).isStr t) then
    st
  else
    addIssue st "E_QUESTION_BAD_TYPE" (path ++ "/question_type")
      ("Invalid question_type '" ++ pyStrOf (Json.objGetD q "question_type" .null) ++
        "'. Allowed: " ++ sortedAllowedRepr)
      fref (.obj q)

/-- The options-not-array re-check [render_survey.py 204-213]; after
`nqDefaults` the value is always a list, so the guard never fires, exactly
as in the source. -/
def nqOptionsArray (q : List (String × Json)) (path : String)
    (fref : List (String × Json)) (st : NormState) : List (String × Json) × NormState :=
  match Json.objGet? q "options" with
  | some (.arr _) => (q, st)
  | _ =>
      (Json.objSet q "options" (.arr []),
        addIssue st "E_OPTIONS_NOT_ARRAY" (path ++ "/options")
          "Field 'options' must be an array." fref (.obj q))

/-- Membership of the question type in a string set, via Python `==`. -/
def qtypeIn (qtype : Json) (ts : List String) : Bool :=
  ts.any (fun t => qtype.isStr t)

/-- The options-must-be-empty coercion [render_survey.py 215-224]. -/
def nqOptionsMustBeEmpty (q : List (String × Json)) (path : String)
    (fref : List (String × Json)) (st : NormState) : List (String × Json) × NormState :=
  if qtypeIn (Json.objGetD q "question_type" .null) ["open_ended", "matrix", "numeric_input"] then
    if ¬ (Json.objGetD q "options" .null).isEmptyArr then
      (Json.objSet q "options" (.arr []),
        addIssue st "E_OPTIONS_MUST_BE_EMPTY" (path ++ "/options")
          ("For question_type '" ++ pyStrOf (Json.objGetD q "question_type" .null) ++
            "', options must be [].")
          fref (.obj q))
    else (q, st)
  else (q, st)

/-- `len(q.get("options", []))` once options is known list-shaped. -/
def optionsLen (q : List (String × Json)) : Nat :=
  match Json.objGetD q "options" (.arr []) with
  | .arr xs => xs.length
  | _ => 0

/-- The options-required check [render_survey.py 226-234] (no mutation). -/
def nqOptionsRequired (q : List (String × Json)) (path : String)
    (fref : List (String × Json)) (st : NormState) : NormState :=
  if qtypeIn (Json.objGetD q "question_type" .null)
      ["single_choice", "multiple_choice", "scale", "ranking"] then
    if optionsLen q = 0 then
      addIssue st "E_OPTIONS_REQUIRED" (path ++ "/options")
        ("For question_type '" ++ pyStrOf (Json.objGetD q "question_type" .null) ++
          "', options must be non-empty.")
        fref (.obj q)
    else st
  else st

/-- Python `x or []` for the matrix rows/columns default. -/
def orEmptyList (v : Json) : Json :=
  if v.truthy then v else .arr []

/-- The matrix rows/columns enforcement [render_survey.py 236-251]: a matrix
question with falsy rows or columns gets an issue and both fields defaulted;
a non-matrix question with non-null rows or columns gets them cleared to
null with no issue. -/
def nqMatrixRowsCols (q : List (String × Json)) (path : String)
    (fref : List (String × Json)) (st : NormState) : List (String × Json) × NormState :=
  if (Json.objGetD q "question_type" .null).isStr "matrix" then
    if ¬ (Json.objGetD q "rows" .null).truthy ∨ ¬ (Json.objGetD q "columns" .null).truthy then
      (Json.objSet (Json.objSet q "rows" (orEmptyList (Json.objGetD q "rows" .null)))
          "columns" (orEmptyList (Json.objGetD q "columns" .null)),
        addIssue st "E_MATRIX_MISSING_ROWS_COLS" path
          "Matrix questions require non-empty 'rows' and 'columns'." fref (.obj q))
    else (q, st)
  else
    if ¬ (Json.objGetD q "rows" .null).isNull
        ∨ ¬ (Json.objGetD q "columns" .null).isNull then
      (Json.objSet (Json.objSet q "rows" .null) "columns" .null, st)
    else (q, st)

/-- Pair-threaded form of the options-not-array re-check. -/
def nqStep3 (path : String) (fref : List (String × Json))
    (p : List (String × Json) × NormState) : List (String × Json) × NormState :=
  nqOptionsArray p.1 path fref p.2

/-- Pair-threaded form of the options-must-be-empty coercion. -/
def nqStep4 (path : String) (fref : List (String × Json))
    (p : List (String × Json) × NormState) : List (String × Json) × NormState :=
  nqOptionsMustBeEmpty p.1 path fref p.2

/-- Pair-threaded form of the last two checks: options-required, then the
matrix rows/columns enforcement. -/
def nqStep5 (path : String) (fref : List (String × Json))
    (p : List (String × Json) × NormState) : List (String × Json) × NormState :=
  nqMatrixRowsCols p.1 path fref (nqOptionsRequired p.1 path fref p.2)

/-- `norm_question` [render_survey.py 167-252]: the hard-required check, the
default fill, the type check, and the three field coercions, in source
order. -/
def normQuestion (q : List (String × Json)) (path : String)
    (fref : List (String × Json)) (st : NormState) : List (String × Json) × NormState :=
  nqStep5 path fref (nqStep4 path fref (nqStep3 path fref
    (nqDefaults q, nqTypeCheck (nqDefaults q) path fref (nqHardRequired q path fref st))))

/-- `[i for ...]` walk of `validate_questions_block` [render_survey.py
256-297]: each dict question is normalized in place and checked for
duplicate ids; non-dict entries are flagged and left alone.  An unhashable
(list/dict-valued) `question_id` makes the Python `seen_qids` set operations
raise `TypeError`. -/
def vqbGo (basePath : String) (frefBase : List (String × Json)) :
    List Json → Nat → NormState → Except PyErr (List Json × NormState)
  | [], _, st => .ok ([], st)
  | qj :: rest, i, st =>
      let qPath := basePath ++ "/" ++ Nat.repr i
      match qj with
      | .obj q =>
          let fref := Json.objSet frefBase "question_id" (Json.objGetD q "question_id" .null)
          let q' := (normQuestion q qPath fref st).1
          let st1 := (normQuestion q qPath fref st).2
          let qid := Json.objGetD q' "question_id" .null
          if Json.hashableScalar qid then
            let st2 :=
              if st1.seen.any (fun x => Json.scalarEq x qid) then
                addIssue st1 "E_DUPLICATE_QUESTION_ID" (qPath ++ "/question_id")
                  ("Duplicate question_id '" ++ pyStrOf qid ++ "'.") fref (.obj q')
              else { st1 with seen := st1.seen ++ [qid] }
            match vqbGo basePath frefBase rest (i + 1) st2 with
            | .error e => .error e
            | .ok (rest', st3) => .ok (.obj q' :: rest', st3)
          else .error .typeError
      | other =>
          let st := addIssue st "E_QUESTION_NOT_OBJECT" qPath
            "Each question must be a JSON object." frefBase other
          match vqbGo basePath frefBase rest (i + 1) st with
          | .error e => .error e
          | .ok (rest', st) => .ok (other :: rest', st)

/-- `validate_questions_block` [render_survey.py 256-297]. -/
def validateQuestionsBlock (questions : Json) (basePath : String)
    (frefBase : List (String × Json)) (st : NormState) :
    Except PyErr (Json × NormState) :=
  match questions with
  | .arr qs =>
      match vqbGo basePath frefBase qs 0 st with
      | .error e => .error e
      | .ok (qs', st) => .ok (.arr qs', st)
  | other =>
      .ok (other,
        addIssue st "E_QUESTIONS_NOT_ARRAY" basePath "Questions block must be an array."
          frefBase other)

/-- Store a freshly rebuilt value under a key only when the key was already
present (the source mutates the existing list/dicts in place and stores
nothing when `.get` returned `None`). -/
def updateIfPresent (v : Json) (k : String) (nv : Json) : Json :=
  match v with
  | .obj fs => if Json.objHasKey fs k then .obj (Json.objSet fs k nv) else .obj fs
  | other => other

/-- `x.get(k)` on a value that must be a dict (`AttributeError` otherwise). -/
def pyDictGet (v : Json) (k : String) : Except PyErr Json :=
  match v with
  | .obj fs => .ok (Json.objGetD fs k .null)
  | _ => .error .attributeError

/-- `x[k]` for a string key: dicts look up (`KeyError` when absent), every
other type is a `TypeError`. -/
def pyGetItemStr (v : Json) (k : String) : Except PyErr Json :=
  match v with
  | .obj fs =>
      match Json.objGet? fs k with
      | some x => .ok x
      | none => .error (.keyError k)
  | _ => .error .typeError

/-- Python `k in v` for a string `k`: dict key membership, list element
membership, substring test on strings, `TypeError` otherwise. -/
def pyContains (v : Json) (k : String) : Except PyErr Bool :=
  match v with
  | .obj fs => .ok (Json.objHasKey fs k)
  | .arr xs => .ok (xs.any (fun x => x.isStr k))
  | .str t => .ok (containsSub k.toList t.toList)
  | _ => .error .typeError

/-- The top-level-keys loop [render_survey.py 153-162]. -/
def topKeyGo (survey : Json) : List String → NormState → Except PyErr NormState
  | [], st => .ok st
  | k :: rest, st =>
      match pyContains survey k with
      | .error e => .error e
      | .ok b =>
          let st :=
            if b then st
            else
              addIssue st "E_TOPLEVEL_MISSING_KEY" ("/" ++ k)
                ("Missing top-level key '" ++ k ++ "'.")
                [("section", .str k)] (.obj [("missing_key", .str k)])
          topKeyGo survey rest st

/-- The SCREENER / DEMOGRAPHICS processing [render_survey.py 299-304,
357-362]: fetch the section, run the questions block on `.get("questions")`,
store the rebuilt questions back. -/
def processSection (s : Json) (key basePath : String) (st : NormState) :
    Except PyErr (Json × NormState) :=
  match pyGetItemStr s key with
  | .error e => .error e
  | .ok sec =>
      match pyDictGet sec "questions" with
      | .error e => .error e
      | .ok qsv =>
          match validateQuestionsBlock qsv basePath [("section", Json.str key)] st with
          | .error e => .error e
          | .ok (qs', st) =>
              match s with
              | .obj fs => .ok (.obj (Json.objSet fs key (updateIfPresent sec "questions" qs')), st)
              | _ => .error .typeError

/-- The subsection-id bookkeeping of one MAIN_SECTION subsection
[render_survey.py 320-333]: missing or duplicate ids add issues, unhashable
ids raise `TypeError` exactly as in Python. -/
def ssIdStep (ss : List (String × Json)) (ssPath : String) (seenSS : List Json)
    (st : NormState) : Except PyErr (List Json × NormState) :=
  let ssId := Json.objGetD ss "subsection_id" .null
  let fref := [("section", Json.str "MAIN_SECTION"), ("subsection_id", ssId)]
  if ¬ ssId.truthy then
    .ok (seenSS, addIssue st "E_SUBSECTION_MISSING_ID" (ssPath ++ "/subsection_id")
      "subsection_id is required." fref (.obj ss))
  else if ¬ Json.hashableScalar ssId then .error .typeError
  else if seenSS.any (fun x => Json.scalarEq x ssId) then
    .ok (seenSS, addIssue st "E_DUPLICATE_SUBSECTION_ID" (ssPath ++ "/subsection_id")
      ("Duplicate subsection_id '" ++ pyStrOf ssId ++ "'.") fref (.obj ss))
  else .ok (seenSS ++ [ssId], st)

/-- The per-subsection walk of MAIN_SECTION [render_survey.py 316-355],
threading the local `seen_ss_ids` set. -/
def ssGo : List Json → Nat → List Json → NormState →
    Except PyErr (List Json × List Json × NormState)
  | [], _, seenSS, st => .ok ([], seenSS, st)
  | ssj :: rest, i, seenSS, st =>
      let ssPath := "/MAIN_SECTION/sub_sections/" ++ Nat.repr i
      match ssj with
      | .obj ss =>
          let fref := [("section", Json.str "MAIN_SECTION"),
            ("subsection_id", Json.objGetD ss "subsection_id" .null)]
          match ssIdStep ss ssPath seenSS st with
          | .error e => .error e
          | .ok (seenSS, st) =>
              match validateQuestionsBlock (Json.objGetD ss "questions" .null)
                  (ssPath ++ "/questions") fref st with
              | .error e => .error e
              | .ok (qs', st) =>
                  match ssGo rest (i + 1) seenSS st with
                  | .error e => .error e
                  | .ok (rest', seenSS, st) =>
                      .ok (updateIfPresent (.obj ss) "questions" qs' :: rest', seenSS, st)
      | other =>
          let st := addIssue st "E_SUBSECTION_NOT_OBJECT" ssPath
            "Each sub_section must be an object." [("section", Json.str "MAIN_SECTION")] other
          match ssGo rest (i + 1) seenSS st with
          | .error e => .error e
          | .ok (rest', seenSS, st) => .ok (other :: rest', seenSS, st)

/-- The MAIN_SECTION processing [render_survey.py 306-355]. -/
def processMain (s : Json) (st : NormState) : Except PyErr (Json × NormState) :=
  match pyGetItemStr s "MAIN_SECTION" with
  | .error e => .error e
  | .ok main =>
      match pyDictGet main "sub_sections" with
      | .error e => .error e
      | .ok subsv =>
          match subsv with
          | .arr sss =>
              match ssGo sss 0 [] st with
              | .error e => .error e
              | .ok (sss', _, st) =>
                  match s with
                  | .obj fs =>
                      .ok (.obj (Json.objSet fs "MAIN_SECTION"
                        (updateIfPresent main "sub_sections" (.arr sss'))), st)
                  | _ => .error .typeError
          | other =>
              .ok (s, addIssue st "E_SUBSECTIONS_NOT_ARRAY" "/MAIN_SECTION/sub_sections"
                "MAIN_SECTION.sub_sections must be an array."
                [("section", Json.str "MAIN_SECTION")] other)

/-- The FLOW shallow check [render_survey.py 364-373]. -/
def checkFlow (s : Json) (st : NormState) : Except PyErr NormState :=
  match s with
  | .obj fs =>
      let flow := Json.objGetD fs "FLOW" (.obj [])
      match pyContains flow "routing_rules" with
      | .error e => .error e
      | .ok b =>
          if b then
            match pyGetItemStr flow "routing_rules" with
            | .error e => .error e
            | .ok rr =>
                match rr with
                | .arr _ => .ok st
                | other =>
                    .ok (addIssue st "E_ROUTING_RULES_NOT_ARRAY" "/FLOW/routing_rules"
                      "FLOW.routing_rules must be an array." [("section", Json.str "FLOW")]
                      other)
          else .ok st
  | _ => .error .attributeError

/-- The DIMENSION_COVERAGE_SUMMARY shallow check [render_survey.py 375-384]. -/
def checkDim (s : Json) (st : NormState) : Except PyErr NormState :=
  match s with
  | .obj fs =>
      match Json.objGetD fs "DIMENSION_COVERAGE_SUMMARY" .null with
      | .null => .ok st
      | .arr _ => .ok st
      | other =>
          .ok (addIssue st "E_DIMENSION_SUMMARY_NOT_ARRAY" "/DIMENSION_COVERAGE_SUMMARY"
            "DIMENSION_COVERAGE_SUMMARY must be an array."
            [("section", Json.str "DIMENSION_COVERAGE_SUMMARY")] other)
  | _ => .error .attributeError

/-- `validate_and_normalise` [render_survey.py 125-386]: the deep copy of the
source becomes value passing; Python exceptions surface as `.error`. -/
def validateAndNormalise (survey : Json) : Except PyErr (Json × List ValidationIssue) :=
  match topKeyGo survey requiredTopLevelKeys NormState.initial with
  | .error e => .error e
  | .ok st =>
      if ¬ st.issues.isEmpty then .ok (survey, st.issues)
      else
        match processSection survey "SCREENER" "/SCREENER/questions" st with
        | .error e => .error e
        | .ok (s, st) =>
            match processMain s st with
            | .error e => .error e
            | .ok (s, st) =>
                match processSection s "DEMOGRAPHICS" "/DEMOGRAPHICS/questions" st with
                | .error e => .error e
                | .ok (s, st) =>
                    match checkFlow s st with
                    | .error e => .error e
                    | .ok st =>
                        match checkDim s st with
                        | .error e => .error e
                        | .ok st => .ok (s, st.issues)

/-- Top-level dict read, `none` for non-dicts and absent keys. -/
def jsonTopGet : Json → String → Option Json
  | .obj fs, k => Json.objGet? fs k
  | _, _ => none

/-- The elements of a `questions` value when it is an array. -/
def questionElems : Option Json → List Json
  | some (.arr qs) => qs
  | _ => []

/-- The questions of one subsection entry. -/
def subQuestions : Json → List Json
  | .obj ss => questionElems (Json.objGet? ss "questions")
  | _ => []

/-- All elements of the `questions` array of a top-level section, as read
back from a (normalized) document. -/
def sectionQuestionList (s : Json) (key : String) : List Json :=
  match jsonTopGet s key with
  | some sec => subQuestions sec
  | none => []

/-- The subsection entries of MAIN_SECTION, when they form an array. -/
def mainSubSections (s : Json) : List Json :=
  match jsonTopGet s "MAIN_SECTION" with
  | some (.obj main) => questionElems (Json.objGet? main "sub_sections")
  | _ => []

/-- All elements of the question arrays of MAIN_SECTION subsections. -/
def mainQuestionLists (s : Json) : List Json :=
  (mainSubSections s).flatMap subQuestions

/-- Every question entry of a survey document, in section order. -/
def collectQuestions (s : Json) : List Json :=
  sectionQuestionList s "SCREENER" ++ mainQuestionLists s ++
    sectionQuestionList s "DEMOGRAPHICS"

/-- The concrete C5 input: a well-formed single_choice screener question that
also carries a `rows` value. -/
def c5Question : List (String × Json) :=
  [("question_id", .str "SCR_Q1"), ("question_text", .str "How old are you?"),
    ("question_type", .str "single_choice"), ("options", .arr [.str "18-24"]),
    ("rows", .arr [.str "a"])]

def c5Survey : Json := .obj
  [("STUDY_METADATA", .obj []),
    ("SCREENER", .obj [("questions", .arr [.obj c5Question])]),
    ("MAIN_SECTION", .obj [("sub_sections", .arr [])]),
    ("DEMOGRAPHICS", .obj [("questions", .arr [])]),
    ("FLOW", .obj []),
    ("DIMENSION_COVERAGE_SUMMARY", .arr [])]

/-- The question after normalization: `rows` has been cleared to null. -/
def c5QuestionOut : List (String × Json) :=
  [("question_id", .str "SCR_Q1"), ("question_text", .str "How old are you?"),
    ("question_type", .str "single_choice"), ("options", .arr [.str "18-24"]),
    ("rows", .null), ("columns", .null), ("display_logic", .null), ("piping", .null),
    ("required", .bool true), ("notes", .null)]

def c5SurveyOut : Json := .obj
  [("STUDY_METADATA", .obj []),
    ("SCREENER", .obj [("questions", .arr [.obj c5QuestionOut])]),
    ("MAIN_SECTION", .obj [("sub_sections", .arr [])]),
    ("DEMOGRAPHICS", .obj [("questions", .arr [])]),
    ("FLOW", .obj []),
    ("DIMENSION_COVERAGE_SUMMARY", .arr [])]

-- ---------------------------------------------------------------------------
-- Claim C1: invariants of the normalized document
-- ---------------------------------------------------------------------------

/-- The per-question invariant actually guaranteed by `norm_question`:
open_ended/matrix/numeric_input questions end with empty options, and matrix
questions end with non-null (though possibly empty) rows and columns. -/
def questionOk (q : List (String × Json)) : Prop :=
  (qtypeIn (Json.objGetD q "question_type" .null) ["open_ended", "matrix", "numeric_input"]
      = true →
    Json.objGetD q "options" .null = .arr [])
  ∧ ((Json.objGetD q "question_type" .null).isStr "matrix" = true →
    Json.objGetD q "rows" .null ≠ .null ∧ Json.objGetD q "columns" .null ≠ .null)

/-- A survey with all required top-level keys whose SCREENER holds a
stimulus_display question carrying options and a matrix question without
rows. -/
def c1x : Json := .obj [
  ("STUDY_METADATA", .obj []),
  ("SCREENER", .obj [("questions", .arr [
    .obj [("question_id", .str "SCR_1"), ("question_text", .str "See this"),
      ("question_type", .str "stimulus_display"),
      ("options", .arr [.str "x"])],
    .obj [("question_id", .str "SCR_2"), ("question_text", .str "Rate rows"),
      ("question_type", .str "matrix"),
      ("columns", .arr [.str "c1"])]])]),
  ("MAIN_SECTION", .obj [("sub_sections", .arr [])]),
  ("DEMOGRAPHICS", .obj [("questions", .arr [])]),
  ("FLOW", .obj []),
  ("DIMENSION_COVERAGE_SUMMARY", .arr [])]

/-- The stimulus_display question of `c1x` as returned by the normalizer. -/
def c1xStimQ : List (String × Json) :=
  [("question_id", .str "SCR_1"), ("question_text", .str "See this"),
   ("question_type", .str "stimulus_display"), ("options", .arr [.str "x"]),
   ("rows", .null), ("columns", .null), ("display_logic", .null),
   ("piping", .null), ("required", .bool true), ("notes", .null)]

/-- The matrix question of `c1x` as returned by the normalizer. -/
def c1xMatQ : List (String × Json) :=
  [("question_id", .str "SCR_2"), ("question_text", .str "Rate rows"),
   ("question_type", .str "matrix"), ("columns", .arr [.str "c1"]),
   ("options", .arr []), ("rows", .arr []), ("display_logic", .null),
   ("piping", .null), ("required", .bool true), ("notes", .null)]

/-- A survey with all required top-level keys and one complete matrix
question. -/
def c1w : Json := .obj [
  ("STUDY_METADATA", .obj []),
  ("SCREENER", .obj [("questions", .arr [
    .obj [("question_id", .str "SCR_1"), ("question_text", .str "Rate"),
      ("question_type", .str "matrix"), ("rows", .arr [.str "r1"]),
      ("columns", .arr [.str "c1"])]])]),
  ("MAIN_SECTION", .obj [("sub_sections", .arr [])]),
  ("DEMOGRAPHICS", .obj [("questions", .arr [])]),
  ("FLOW", .obj []),
  ("DIMENSION_COVERAGE_SUMMARY", .arr [])]

/-- The matrix question of `c1w` as returned by the normalizer. -/
def c1wQ : List (String × Json) :=
  [("question_id", .str "SCR_1"), ("question_text", .str "Rate"),
   ("question_type", .str "matrix"), ("rows", .arr [.str "r1"]),
   ("columns", .arr [.str "c1"]), ("options", .arr []),
   ("display_logic", .null), ("piping", .null), ("required", .bool true),
   ("notes", .null)]

/-- The full normalized output for `c1w`. -/
def c1wOut : Json := .obj [
  ("STUDY_METADATA", .obj []),
  ("SCREENER", .obj [("questions", .arr [.obj c1wQ])]),
  ("MAIN_SECTION", .obj [("sub_sections", .arr [])]),
  ("DEMOGRAPHICS", .obj [("questions", .arr [])]),
  ("FLOW", .obj []),
  ("DIMENSION_COVERAGE_SUMMARY", .arr [])]

-- ---------------------------------------------------------------------------
-- Routing index (_build_routing_index, render_survey.py 1007-1098)
-- ---------------------------------------------------------------------------

/-- A `\\w` word character (`[A-Za-z0-9_]`; the concrete inputs are ASCII). -/
def isWordChar (c : Char) : Bool :=
  (c.toNat >= 65 && c.toNat <= 90) || (c.toNat >= 97 && c.toNat <= 122) ||
  (c.toNat >= 48 && c.toNat <= 57) || c = '_'

/-- `[A-Z]` (ASCII uppercase). -/
def isUpperAZ (c : Char) : Bool := c.toNat >= 65 && c.toNat <= 90

/-- `[a-zA-Z]` (`[A-Z]` under `re.IGNORECASE`). -/
def isAlphaAZ (c : Char) : Bool :=
  (c.toNat >= 65 && c.toNat <= 90) || (c.toNat >= 97 && c.toNat <= 122)

/-- `\\d` (ASCII digit). -/
def isDigit09 (c : Char) : Bool := c.toNat >= 48 && c.toNat <= 57

/-- `\\s` whitespace (the ASCII cases of Python str whitespace). -/
def isPySpace (c : Char) : Bool :=
  c = ' ' || c = '\t' || c = '\n' || c = '\x0b' || c = '\x0c' || c = '\r'

/-- The maximal runs of word characters of a text, in order. Matches of
`\\b[A-Z][A-Z0-9_]*\\b` are exactly such runs (word boundaries force a match
to cover a full run). -/
def wordRunsGo : List Char → List Char → List (List Char)
  | [], run => if run.isEmpty then [] else [run.reverse]
  | c :: rest, run =>
      if isWordChar c then wordRunsGo rest (c :: run)
      else if run.isEmpty then wordRunsGo rest []
      else run.reverse :: wordRunsGo rest []

def wordRuns (cs : List Char) : List (List Char) := wordRunsGo cs []

/-- Does a full word run match `[A-Z][A-Z0-9_]*`? -/
def upperTokenRun : List Char → Bool
  | [] => false
  | c :: cs => isUpperAZ c && cs.all (fun d => isUpperAZ d || isDigit09 d || d = '_')

/-- `re.findall(r"\\b[A-Z][A-Z0-9_]*\\b", text)`. -/
def findUpperTokens (cs : List Char) : List String :=
  ((wordRuns cs).filter upperTokenRun).map (fun r => String.mk r)

/-- `find_qids` [render_survey.py 1053-1057]: upper-case tokens that are in
the qid set. -/
def findQids (cs : List Char) (qids : List String) : List String :=
  (findUpperTokens cs).filter (fun t => qids.contains t)

/-- Flush one word run for `re.sub(r"\\bonly\\b", "", clause, re.IGNORECASE)`:
a run equal to "only" case-insensitively is removed. -/
def runFlushOnly (run : List Char) : List Char :=
  if run.map Char.toLower = ['o', 'n', 'l', 'y'] then [] else run

/-- `re.sub(r"\\bonly\\b", "", clause, flags=re.IGNORECASE)`: word-boundary
matches of "only" are exactly the maximal word runs spelling it. -/
def removeOnlyGo : List Char → List Char → List Char
  | [], run => runFlushOnly run.reverse
  | c :: rest, run =>
      if isWordChar c then removeOnlyGo rest (c :: run)
      else runFlushOnly run.reverse ++ (c :: removeOnlyGo rest [])

def removeOnly (cs : List Char) : List Char := removeOnlyGo cs []

/-- Python `str.strip()` (whitespace from both ends). -/
def pyStripWs (cs : List Char) : List Char :=
  ((cs.dropWhile isPySpace).reverse.dropWhile isPySpace).reverse

/-- Case-insensitive match of a (lower-case) literal pattern at the head,
returning the remainder. -/
def dropCI : List Char → List Char → Option (List Char)
  | [], cs => some cs
  | _ :: _, [] => none
  | p :: ps, c :: cs => if c.toLower = p then dropCI ps cs else none

/-- `re.match(r"^show\\s+", clause, re.IGNORECASE)` (and skip): the literal
followed by at least one whitespace character. -/
def clauseHeadWs (lit : List Char) (cs : List Char) : Bool :=
  match dropCI lit cs with
  | some (c :: _) => isPySpace c
  | _ => false

/-- `re.match(r"^terminate\\b", clause, re.IGNORECASE)`. -/
def clauseTerminateHead (cs : List Char) : Bool :=
  match dropCI ['t', 'e', 'r', 'm', 'i', 'n', 'a', 't', 'e'] cs with
  | some [] => true
  | some (c :: _) => !isWordChar c
  | none => false

/-- No newline (`.` of the non-DOTALL regex never matches a newline). -/
def noNl (cs : List Char) : Bool := cs.all (fun c => !(c = '\n'))

/-- Right-to-left disjunction over indices: the value of `f` at the LAST
index of the list where it succeeds (regex greedy backtracking order). -/
def findSomeRev {α : Type} (f : Nat → Option α) : List Nat → Option α
  | [] => none
  | i :: rest =>
      match findSomeRev f rest with
      | some v => some v
      | none => f i

/-- The `question\\s+([A-Z0-9_]+)` tail of the display-artefact pattern,
searched under a greedy `.*` (so at the last feasible position). -/
def matchQuestionPart (cs : List Char) : Option String :=
  findSomeRev (fun j =>
    if noNl (cs.take j) &&
        (dropCI ['q', 'u', 'e', 's', 't', 'i', 'o', 'n'] (cs.drop j)).isSome then
      match dropCI ['q', 'u', 'e', 's', 't', 'i', 'o', 'n'] (cs.drop j) with
      | none => none
      | some r =>
          let w := r.takeWhile isPySpace
          if w.isEmpty then none
          else
            let g2 := (r.drop w.length).takeWhile isWordChar
            if g2.isEmpty then none else some (String.mk g2)
    else none) (List.range (cs.length + 1))

/-- The `.*with.*question\\s+([A-Z0-9_]+)` tail (greedy: latest `with`
whose remainder completes). -/
def matchWithPart (cs : List Char) : Option String :=
  findSomeRev (fun i =>
    if noNl (cs.take i) then
      match dropCI ['w', 'i', 't', 'h'] (cs.drop i) with
      | none => none
      | some r => matchQuestionPart r
    else none) (List.range (cs.length + 1))

/-- One anchored attempt of
`Display\\s+artefact\\s+([A-Z]\\d+).*with.*question\\s+([A-Z0-9_]+)`
(re.IGNORECASE) at the head of the text. -/
def matchDisplayAt (cs : List Char) : Option (String × String) :=
  match dropCI ['d', 'i', 's', 'p', 'l', 'a', 'y'] cs with
  | none => none
  | some r1 =>
      let w1 := r1.takeWhile isPySpace
      if w1.isEmpty then none
      else
        match dropCI ['a', 'r', 't', 'e', 'f', 'a', 'c', 't'] (r1.drop w1.length) with
        | none => none
        | some r2 =>
            let w2 := r2.takeWhile isPySpace
            if w2.isEmpty then none
            else
              match r2.drop w2.length with
              | [] => none
              | c :: r3 =>
                  if isAlphaAZ c then
                    let ds := r3.takeWhile isDigit09
                    if ds.isEmpty then none
                    else
                      match matchWithPart (r3.drop ds.length) with
                      | none => none
                      | some g2 => some (String.mk (c :: ds), g2)
                  else none

/-- `re.search` of the display-artefact pattern: the first start position
with a match [render_survey.py 1075-1080]. -/
def displaySearch : List Char → Option (String × String)
  | [] => none
  | c :: rest =>
      match matchDisplayAt (c :: rest) with
      | some v => some v
      | none => displaySearch rest

/-- One routing-index entry [render_survey.py 1045-1052]. -/
structure RouteEntry where
  shown_by_rules : List String
  skipped_by_rules : List String
  terminate_by_rules : List String
  displays_artefact : Option String

def emptyRouteEntry : RouteEntry := ⟨[], [], [], none⟩

/-- The three list buckets of an entry. -/
inductive RBucket where
  | shown
  | skipped
  | terminate

def bucketAppend (e : RouteEntry) (b : RBucket) (rid : String) : RouteEntry :=
  match b with
  | .shown => { e with shown_by_rules := e.shown_by_rules ++ [rid] }
  | .skipped => { e with skipped_by_rules := e.skipped_by_rules ++ [rid] }
  | .terminate => { e with terminate_by_rules := e.terminate_by_rules ++ [rid] }

/-- `ensure` [render_survey.py 1044-1052]: insert an empty entry for a new
qid (dicts keep insertion order). -/
def ensureEntry (idx : List (String × RouteEntry)) (qid : String) :
    List (String × RouteEntry) :=
  if (idx.find? (fun p => p.1 == qid)).isSome then idx
  else idx ++ [(qid, emptyRouteEntry)]

/-- Modify the entry stored under a qid. -/
def entModify : List (String × RouteEntry) → String → (RouteEntry → RouteEntry) →
    List (String × RouteEntry)
  | [], _, _ => []
  | (k, e) :: rest, qid, f =>
      if k == qid then (k, f e) :: rest else (k, e) :: entModify rest qid f

/-- `apply_clause` [render_survey.py 1059-1063]. -/
def applyClause (idx : List (String × RouteEntry)) (rule_id : String)
    (clause : List Char) (b : RBucket) (qids : List String) :
    List (String × RouteEntry) :=
  (findQids (removeOnly clause) qids).foldl
    (fun idx qid => entModify (ensureEntry idx qid) qid (fun e => bucketAppend e b rule_id))
    idx

/-- The clause dispatch of one routing rule [render_survey.py 1065-1094]. -/
def routeRuleStep (qids : List String) (idx : List (String × RouteEntry))
    (rule : Json) : List (String × RouteEntry) :=
  match rule with
  | .obj r =>
      let rule_id := String.mk (pyStripWs (pyStrOf (Json.objGetD r "rule_id" (.str ""))).toList)
      let condition := pyStrOf (Json.objGetD r "condition" (.str ""))
      let action := pyStrOf (Json.objGetD r "action" (.str ""))
      let idx1 :=
        match displaySearch action.toList with
        | some (art, qid) =>
            entModify (ensureEntry idx qid) qid (fun e => { e with displays_artefact := some art })
        | none => idx
      (((splitCharsOn ';' action.toList []).map pyStripWs).filter
          (fun c => !c.isEmpty)).foldl
        (fun idx clause =>
          if clauseHeadWs ['s', 'h', 'o', 'w'] clause then
            applyClause idx rule_id clause .shown qids
          else if clauseHeadWs ['s', 'k', 'i', 'p'] clause then
            applyClause idx rule_id clause .skipped qids
          else if clauseTerminateHead clause then
            (findQids condition.toList qids).foldl
              (fun idx qid =>
                entModify (ensureEntry idx qid) qid
                  (fun e => bucketAppend e .terminate rule_id))
              idx
          else idx)
        idx1
  | _ => idx

/-- Python string `<` (code-point lexicographic). -/
def charsLt : List Char → List Char → Bool
  | [], [] => false
  | [], _ :: _ => true
  | _ :: _, [] => false
  | a :: as2, b :: bs => if a < b then true else if b < a then false else charsLt as2 bs

def insertStrSorted (x : String) : List String → List String
  | [] => [x]
  | y :: ys => if charsLt y.toList x.toList then y :: insertStrSorted x ys else x :: y :: ys

/-- Python `sorted(...)` on strings (insertion sort, stable). -/
def sortStrs : List String → List String
  | [] => []
  | x :: xs => insertStrSorted x (sortStrs xs)

/-- Drop duplicate strings keeping first occurrences (`set(...)` up to
order, which the sort then fixes). -/
def dedupStrsGo : List String → List String → List String
  | [], acc => acc.reverse
  | x :: xs, acc => if acc.contains x then dedupStrsGo xs acc else dedupStrsGo xs (x :: acc)

/-- `sorted(set(lst))`. -/
def sortedSet (l : List String) : List String := sortStrs (dedupStrsGo l [])

/-- The final per-bucket `sorted(set(...))` pass [render_survey.py 1095-1097]. -/
def finalizeIndex (idx : List (String × RouteEntry)) : List (String × RouteEntry) :=
  idx.map (fun p => (p.1,
    { shown_by_rules := sortedSet p.2.shown_by_rules,
      skipped_by_rules := sortedSet p.2.skipped_by_rules,
      terminate_by_rules := sortedSet p.2.terminate_by_rules,
      displays_artefact := p.2.displays_artefact }))

/-- `_build_routing_index` [render_survey.py 1007-1098], first component.
The second component (`rule_metadata`) is built in a separate first loop
that never touches `routing_index`, so it is not modelled here. -/
def buildRoutingIndex (flow : List (String × Json)) (qids : List String) :
    List (String × RouteEntry) :=
  match Json.objGetD flow "routing_rules" (.arr []) with
  | .arr rules => finalizeIndex (rules.foldl (routeRuleStep qids) [])
  | _ => []

/-- The routing rule of claim C8. -/
def c8Rule : Json := .obj [("rule_id", .str "R1"),
  ("condition", .str "SCR_Q1 = 'No'"), ("action", .str "Skip MS1_Q2")]

/-- A FLOW block holding only that rule. -/
def c8Flow : List (String × Json) := [("routing_rules", .arr [c8Rule])]

-- ---------------------------------------------------------------------------
-- SEQ_001 stimulus relocation (_check_stimulus_before_evaluation,
-- validate_survey.py 1075-1113)
-- ---------------------------------------------------------------------------

/-- A question dict with the keys the sequence validators touch. On this
domain Python dict equality (used by `list.remove`) is record equality. -/
structure SeqQuestion where
  question_id : String
  question_type : String
  question_text : String
  options : List String
deriving DecidableEq

structure SeqSubsection where
  subsection_id : String
  questions : List SeqQuestion
deriving DecidableEq

/-- One ValidationResult of the sequence validators (validate_survey.py
24-37; all fields that SEQ_001 sets; the source field named section is
rendered section_id here). -/
structure SeqResult where
  check_id : String
  check_name : String
  severity : String
  question_id : String
  section_id : String
  message : String
  action_taken : Option String
deriving DecidableEq

/-- The first `(idx, q)` of `stimulus_indices` with `idx != 0`
[validate_survey.py 1086-1095]: scanning all stimulus questions in order and
breaking at the first one not at position 0 finds exactly the first
stimulus_display entry with non-zero index. -/
def findStimNonzero : List SeqQuestion → Nat → Option (Nat × SeqQuestion)
  | [], _ => none
  | q :: rest, i =>
      if q.question_type == "stimulus_display" && !(i == 0) then some (i, q)
      else findStimNonzero rest (i + 1)

/-- `questions.remove(q)`: drop the first element equal to `q`. -/
def listRemoveFirst (q : SeqQuestion) : List SeqQuestion → List SeqQuestion
  | [] => []
  | x :: rest => if x == q then rest else x :: listRemoveFirst q rest

/-- SEQ_001 on one subsection [validate_survey.py 1079-1113]: move the first
out-of-place stimulus_display question to the front and record one auto_fix
(at most one per subsection because of the `break`). -/
def seqFixSubsection (ss : SeqSubsection) : SeqSubsection × List SeqResult :=
  match findStimNonzero ss.questions 0 with
  | none => (ss, [])
  | some (idx, q) =>
      ({ ss with questions := q :: listRemoveFirst q ss.questions },
       [{ check_id := "SEQ_001", check_name := "stimulus_before_evaluation",
          severity := "auto_fix", question_id := q.question_id,
          section_id := ss.subsection_id,
          message := "stimulus_display question at position " ++ Nat.repr (idx + 1)
            ++ ", should be first",
          action_taken := some ("Moved " ++ q.question_id
            ++ " to position 1 in subsection") }])

/-- `_check_stimulus_before_evaluation` over the MAIN_SECTION sub_sections
list: every subsection is fixed, results are appended in order. -/
def checkStimulusBeforeEvaluation : List SeqSubsection →
    List SeqSubsection × List SeqResult
  | [] => ([], [])
  | ss :: rest =>
      let (ss2, r) := seqFixSubsection ss
      let (rest2, rs) := checkStimulusBeforeEvaluation rest
      (ss2 :: rest2, r ++ rs)

/-- Two stimulus_display questions around an open_ended one. -/
def c2StimA : SeqQuestion :=
  ⟨"MS1_Q1", "stimulus_display", "Please review the concept shown.", []⟩

def c2Mid : SeqQuestion :=
  ⟨"MS1_Q2", "open_ended", "What did you think?", []⟩

def c2StimB : SeqQuestion :=
  ⟨"MS1_Q3", "stimulus_display", "Please review the second concept.", []⟩

def c2Subs : List SeqSubsection := [⟨"MS1", [c2StimA, c2Mid, c2StimB]⟩]

-- ---------------------------------------------------------------------------
-- METH_005 nps_csat (_check_nps_csat, validate_survey.py 1812-1933) and its
-- skill gate (_run_methodology_validators, validate_survey.py 1263-1316)
-- ---------------------------------------------------------------------------

/-- `kw in text.lower()` for a lower-case keyword. -/
def textHas (text : String) (kw : String) : Bool :=
  containsSub kw.toList (text.toList.map Char.toLower)

/-- The NPS question collection [validate_survey.py 1817-1824]. -/
def npsQuestions (subs : List SeqSubsection) : List (String × SeqQuestion) :=
  subs.flatMap (fun ss =>
    (ss.questions.filter (fun q =>
      textHas q.question_text "recommend" &&
      (textHas q.question_text "friend" || textHas q.question_text "colleague" ||
       textHas q.question_text "someone you know"))).map
      (fun q => (ss.subsection_id, q)))

/-- The CSAT question collection [validate_survey.py 1893-1900]. -/
def csatQuestions (subs : List SeqSubsection) : List (String × SeqQuestion) :=
  subs.flatMap (fun ss =>
    (ss.questions.filter (fun q =>
      (textHas q.question_text "how satisfied" || textHas q.question_text "satisfaction")
      && q.question_type == "scale")).map
      (fun q => (ss.subsection_id, q)))

/-- The 11-point-scale error of check 1 [validate_survey.py 1832-1840]. -/
def npsScaleError (sid : String) (q : SeqQuestion) : SeqResult :=
  ⟨"METH_005", "nps_csat", "error", q.question_id, sid,
   "NPS question must use 0-10 scale (11 points), found " ++
     Nat.repr q.options.length ++ " options", none⟩

def npsEndpointWarn (sid : String) (q : SeqQuestion) : SeqResult :=
  ⟨"METH_005", "nps_csat", "warning", q.question_id, sid,
   "NPS scale should have endpoints '0 - Not at all likely' and '10 - Extremely likely'",
   none⟩

def npsFollowupWarn (sid : String) (q : SeqQuestion) : SeqResult :=
  ⟨"METH_005", "nps_csat", "warning", q.question_id, sid,
   "NPS question should be followed by open-ended question asking 'why' or 'reason for score'",
   none⟩

def csatScaleWarn (sid : String) (q : SeqQuestion) : SeqResult :=
  ⟨"METH_005", "nps_csat", "warning", q.question_id, sid,
   "CSAT questions typically use 5-point satisfaction scale (found " ++
     Nat.repr q.options.length ++ " options)", none⟩

def npsPositionWarn (q : SeqQuestion) : SeqResult :=
  ⟨"METH_005", "nps_csat", "warning", q.question_id, "DEMOGRAPHICS",
   "NPS/CSAT questions should appear before demographics section, not within it", none⟩

/-- Check 1 of `_check_nps_csat` [validate_survey.py 1830-1858]: the scale
error, else possibly the endpoints warning. -/
def npsCheck1 (sid : String) (q : SeqQuestion) : List SeqResult :=
  if !(q.options.length == 11) then [npsScaleError sid q]
  else
    let firstOpt := (q.options.headD "").toList.map Char.toLower
    let lastOpt := (q.options.getLastD "").toList.map Char.toLower
    let hasZeroStart := containsSub ['0'] firstOpt ||
      containsSub "not at all".toList firstOpt
    let hasTenEnd := containsSub ['1', '0'] lastOpt ||
      containsSub "extremely".toList lastOpt
    if !(hasZeroStart && hasTenEnd) then [npsEndpointWarn sid q] else []

/-- `list.index` (ValueError when absent, modelled by the caller). -/
def idxOf (q : SeqQuestion) : List SeqQuestion → Nat → Option Nat
  | [], _ => none
  | x :: rest, i => if x == q then some i else idxOf q rest (i + 1)

/-- The follow-up scan over `range(nps_idx + 1, min(nps_idx + 3, len))`
[validate_survey.py 1870-1877]: the (at most two) questions after the NPS
question. -/
def hasOpenFollowup (qs : List SeqQuestion) (nidx : Nat) : Bool :=
  ((qs.drop (nidx + 1)).take 2).any (fun nq =>
    nq.question_type == "open_ended" &&
    (textHas nq.question_text "why" || textHas nq.question_text "reason" ||
     textHas nq.question_text "primary reason"))

/-- Checks 1 and 2 for one NPS question [validate_survey.py 1826-1890]:
`subsec_questions.index(nps_q)` raises ValueError when the question is not
in the first subsection carrying its subsection_id. -/
def npsOne (subs : List SeqSubsection) (sid : String) (q : SeqQuestion) :
    Except PyErr (List SeqResult) :=
  match subs.find? (fun ss => ss.subsection_id == sid) with
  | none => .ok (npsCheck1 sid q)
  | some ss =>
      if ss.questions.isEmpty then .ok (npsCheck1 sid q)
      else
        match idxOf q ss.questions 0 with
        | none => .error .valueError
        | some nidx =>
            .ok (npsCheck1 sid q ++
              (if hasOpenFollowup ss.questions nidx then [] else [npsFollowupWarn sid q]))

def npsLoop (subs : List SeqSubsection) :
    List (String × SeqQuestion) → Except PyErr (List SeqResult)
  | [] => .ok []
  | p :: rest =>
      match npsOne subs p.1 p.2 with
      | .error e => .error e
      | .ok rs =>
          match npsLoop subs rest with
          | .error e => .error e
          | .ok rs2 => .ok (rs ++ rs2)

/-- Check 3 [validate_survey.py 1902-1917]. -/
def csatLoop (pairs : List (String × SeqQuestion)) : List SeqResult :=
  pairs.flatMap (fun p =>
    if !(p.2.options.length == 5) then [csatScaleWarn p.1 p.2] else [])

/-- Check 4 [validate_survey.py 1919-1933]. -/
def demoLoop (demo : List SeqQuestion) : List SeqResult :=
  demo.flatMap (fun q =>
    if (textHas q.question_text "recommend" && textHas q.question_text "friend") ||
        textHas q.question_text "satisfied" then [npsPositionWarn q] else [])

/-- `_check_nps_csat` over the MAIN_SECTION sub_sections and the
DEMOGRAPHICS questions. -/
def checkNpsCsat (subs : List SeqSubsection) (demo : List SeqQuestion) :
    Except PyErr (List SeqResult) :=
  match npsLoop subs (npsQuestions subs) with
  | .error e => .error e
  | .ok rs1 =>
      .ok (rs1 ++ csatLoop (csatQuestions subs) ++
        (if !(npsQuestions subs).isEmpty || !(csatQuestions subs).isEmpty then
          demoLoop demo
        else []))

/-- The METH_005 slice of `_run_methodology_validators`
[validate_survey.py 1276-1277]: `_check_nps_csat` runs only when the brief
lists the nps-csat skill. -/
def runNpsCsatIfSkilled (skills : List String) (subs : List SeqSubsection)
    (demo : List SeqQuestion) : Except PyErr (List SeqResult) :=
  if skills.contains "nps-csat" then checkNpsCsat subs demo else .ok []

/-- An NPS-pattern question with a 5-point options list, in MAIN_SECTION
subsection MS1. -/
def c3NpsQ : SeqQuestion :=
  ⟨"MS1_Q1", "scale",
   "How likely are you to recommend this product to a friend?",
   ["1", "2", "3", "4", "5"]⟩

def c3Subs : List SeqSubsection := [⟨"MS1", [c3NpsQ]⟩]

-- ---------------------------------------------------------------------------
-- LOI calculator (loi_calculator.py): typed model of the question dicts with
-- the .get defaults of the source applied at each read site; Python float
-- arithmetic is modelled over ℚ with banker's rounding.
-- ---------------------------------------------------------------------------

structure LoiQuestion where
  question_id : Option String
  priority : Option String
  priority_rank : Option Int
  estimated_seconds : Option Int
  user_override : Option String
  loi_visibility : Option String
deriving DecidableEq

structure LoiConfig where
  slider_position : Int
  snap_point : String
  estimated_loi_minutes : ℚ
  total_questions : Nat
  visible_questions : Nat
  hidden_questions : Nat
  user_pinned_count : Nat
  user_excluded_count : Nat
deriving DecidableEq

/-- The survey as read by the LOI calculator: the three question lists of
`_get_all_questions` (loi_calculator.py 296-314) and the stored
`loi_config`. -/
structure LoiSurvey where
  screener : List LoiQuestion
  main_subs : List (List LoiQuestion)
  demographics : List LoiQuestion
  loi_config : Option LoiConfig
deriving DecidableEq

/-- `_get_all_questions` [loi_calculator.py 296-314]. -/
def getAllQuestions (s : LoiSurvey) : List LoiQuestion :=
  s.screener ++ s.main_subs.flatMap (fun qs => qs) ++ s.demographics

/-- `_get_max_priority_rank` [loi_calculator.py 284-294]:
`q.get("priority")` has no default, so only questions with an explicit
priority equal to the level count; `max_rank` starts at 1. -/
def getMaxPriorityRank (s : LoiSurvey) (lvl : String) : Int :=
  (getAllQuestions s).foldl
    (fun m q =>
      if q.priority == some lvl then max m (q.priority_rank.getD 1) else m) 1

/-- Python `round` (banker's rounding to even) on ℚ. -/
def pyRound (x : ℚ) : Int :=
  if x - ⌊x⌋ < 1/2 then ⌊x⌋
  else if 1/2 < x - ⌊x⌋ then ⌊x⌋ + 1
  else if ⌊x⌋ % 2 = 0 then ⌊x⌋ else ⌊x⌋ + 1

/-- `round(x, 1)`. -/
def pyRound1 (x : ℚ) : ℚ := (pyRound (10 * x) : ℚ) / 10

/-- `_get_snap_point` [loi_calculator.py 215-222]. -/
def snapPoint (pos : Int) : String :=
  if pos ≤ 30 then "quick" else if pos ≤ 70 then "standard" else "deep"

/-- `_should_show_question` [loi_calculator.py 224-282]. -/
def shouldShow (s : LoiSurvey) (pos : Int) (priority : String) (rank : Int) : Bool :=
  if priority == "required" then true
  else if priority == "recommended" then
    if pos ≤ 30 then false
    else if pos ≥ 70 then true
    else
      decide (rank ≤ max 1 (pyRound (((pos : ℚ) - 30) / 40 *
        (getMaxPriorityRank s "recommended" : ℚ))))
  else if priority == "optional" then
    if pos < 70 then false
    else if pos ≥ 100 then true
    else
      decide (rank ≤ max 1 (pyRound (((pos : ℚ) - 70) / 30 *
        (getMaxPriorityRank s "optional" : ℚ))))
  else true

/-- Visibility of one question in the `_calculate_loi_config` loop
[loi_calculator.py 177-199]: pinned → visible, excluded → hidden, else
`_should_show_question` on the .get defaults. -/
def questionVisible (s : LoiSurvey) (pos : Int) (q : LoiQuestion) : Bool :=
  if q.user_override.getD "none" == "pinned" then true
  else if q.user_override.getD "none" == "excluded" then false
  else shouldShow s pos (q.priority.getD "recommended") (q.priority_rank.getD 1)

/-- `_calculate_loi_config` [loi_calculator.py 162-213]: its single loop
accumulates exactly these counts, and sums `estimated_seconds` over the
visible questions. -/
def calcLoiConfig (s : LoiSurvey) (pos : Int) : LoiConfig :=
  let qs := getAllQuestions s
  let visible := qs.countP (fun q => questionVisible s pos q)
  let totalSeconds : Int :=
    (qs.filter (fun q => questionVisible s pos q)).foldl
      (fun t q => t + q.estimated_seconds.getD 10) 0
  { slider_position := pos,
    snap_point := snapPoint pos,
    estimated_loi_minutes := pyRound1 ((totalSeconds : ℚ) / 60),
    total_questions := qs.length,
    visible_questions := visible,
    hidden_questions := qs.length - visible,
    user_pinned_count := qs.countP (fun q => q.user_override.getD "none" == "pinned"),
    user_excluded_count := qs.countP (fun q => q.user_override.getD "none" == "excluded") }

/-- The per-question `loi_visibility` write of the loop. -/
def visUpdate (s : LoiSurvey) (pos : Int) (q : LoiQuestion) : LoiQuestion :=
  let v := if questionVisible s pos q then "visible" else "hidden"
  { q with loi_visibility := some v }

/-- The in-place `loi_visibility` mutation of `_calculate_loi_config`
(`_should_show_question` never reads `loi_visibility`, so every question is
classified against the pre-call state). -/
def applyVisibility (s : LoiSurvey) (pos : Int) : LoiSurvey :=
  { s with
    screener := s.screener.map (visUpdate s pos),
    main_subs := s.main_subs.map (fun qs => qs.map (visUpdate s pos)),
    demographics := s.demographics.map (visUpdate s pos) }

/-- `update_loi_config` [loi_calculator.py 316-324]: recompute, store, and
return the config. -/
def updateLoiConfig (s : LoiSurvey) (pos : Int) : LoiSurvey × LoiConfig :=
  let cfg := calcLoiConfig s pos
  ({ applyVisibility s pos with loi_config := some cfg }, cfg)

/-- `_find_question` [loi_calculator.py 358-364]. -/
def findQuestion (s : LoiSurvey) (qid : String) : Option LoiQuestion :=
  (getAllQuestions s).find? (fun q => q.question_id == some qid)

/-- Mutate the first question with the given id in a list. -/
def mapFirstMatch (qid : String) (f : LoiQuestion → LoiQuestion) :
    List LoiQuestion → List LoiQuestion
  | [] => []
  | q :: rest =>
      if q.question_id == some qid then f q :: rest
      else q :: mapFirstMatch qid f rest

def mapFirstMatchSubs (qid : String) (f : LoiQuestion → LoiQuestion) :
    List (List LoiQuestion) → List (List LoiQuestion)
  | [] => []
  | qs :: rest =>
      if qs.any (fun q => q.question_id == some qid) then
        mapFirstMatch qid f qs :: rest
      else qs :: mapFirstMatchSubs qid f rest

/-- Mutation of the object returned by `_find_question` (the first question
carrying the id, in section order). -/
def overrideFirst (s : LoiSurvey) (qid : String) (f : LoiQuestion → LoiQuestion) :
    LoiSurvey :=
  if s.screener.any (fun q => q.question_id == some qid) then
    { s with screener := mapFirstMatch qid f s.screener }
  else if s.main_subs.any (fun qs => qs.any (fun q => q.question_id == some qid)) then
    { s with main_subs := mapFirstMatchSubs qid f s.main_subs }
  else
    { s with demographics := mapFirstMatch qid f s.demographics }

/-- `survey.get("loi_config", \{\}).get("slider_position", 50)`. -/
def storedSlider (s : LoiSurvey) : Int :=
  (s.loi_config.map (fun c => c.slider_position)).getD 50

/-- `pin_question` [loi_calculator.py 326-335]. -/
def pinQuestion (s : LoiSurvey) (qid : String) : LoiSurvey × LoiConfig :=
  let s1 :=
    if (findQuestion s qid).isSome then
      overrideFirst s qid (fun q =>
        { q with user_override := some "pinned", loi_visibility := some "visible" })
    else s
  updateLoiConfig s1 (storedSlider s1)

/-- `exclude_question` [loi_calculator.py 337-346]. -/
def excludeQuestion (s : LoiSurvey) (qid : String) : LoiSurvey × LoiConfig :=
  let s1 :=
    if (findQuestion s qid).isSome then
      overrideFirst s qid (fun q =>
        { q with user_override := some "excluded", loi_visibility := some "hidden" })
    else s
  updateLoiConfig s1 (storedSlider s1)

/-- `reset_question_override` [loi_calculator.py 348-356]. -/
def resetQuestionOverride (s : LoiSurvey) (qid : String) : LoiSurvey × LoiConfig :=
  let s1 :=
    if (findQuestion s qid).isSome then
      overrideFirst s qid (fun q => { q with user_override := some "none" })
    else s
  updateLoiConfig s1 (storedSlider s1)

/-- A survey with one required, two ranked recommended and one optional
question. -/
def c4Survey : LoiSurvey :=
  { screener := [⟨some "SCR_1", some "required", some 1, some 6, none, none⟩],
    main_subs := [[⟨some "MS1_Q1", some "recommended", some 1, some 10, none, none⟩,
      ⟨some "MS1_Q2", some "recommended", some 2, some 12, none, none⟩,
      ⟨some "MS1_Q3", some "optional", some 1, some 30, none, none⟩]],
    demographics := [⟨some "DEM_1", some "recommended", some 2, some 6, none, none⟩],
    loi_config := none }

/-- A survey whose only question ids are SCR_1 and MS1_Q1. -/
def c10Survey : LoiSurvey :=
  { screener := [⟨some "SCR_1", some "required", some 1, some 6, some "none", some "visible"⟩],
    main_subs := [[⟨some "MS1_Q1", some "recommended", some 1, some 10, some "none", some "visible"⟩]],
    demographics := [],
    loi_config := none }

-- ---------------------------------------------------------------------------
-- Theorems
-- ---------------------------------------------------------------------------

theorem isPatchError_iff (r : Except PyErr α) :
    isPatchError r = true ↔ ∃ m, r = .error (.patchError m) := by
  cases r with
  | ok v => simp [isPatchError]
  | error e => cases e <;> simp [isPatchError]

theorem pyListPop_not_patchError (xs : List Json) (i : Int) :
    isPatchError (pyListPop xs i) = false := by
  simp only [pyListPop]
  split <;> split <;> simp [isPatchError]

theorem pyListSet_not_patchError (xs : List Json) (i : Int) (v : Json) :
    isPatchError (pyListSet xs i v) = false := by
  simp only [pyListSet]
  split <;> split <;> simp [isPatchError]

theorem pyListGet_not_patchError (xs : List Json) (i : Int) :
    isPatchError (pyListGet xs i) = false := by
  simp only [pyListGet]
  split <;> split <;> simp [isPatchError]

theorem isPatchError_wrapArr (r : Except PyErr (List Json)) :
    isPatchError (wrapArr r) = isPatchError r := by
  cases r with
  | ok xs => rfl
  | error e => cases e <;> rfl

theorem mutRemove_not_patchError (parent : Json) (last : String) :
    isPatchError (mutRemove parent last) = false := by
  cases parent <;> simp only [mutRemove] <;> try simp [isPatchError]
  case arr xs =>
    cases h : pyParseInt last with
    | none => simp [isPatchError]
    | some i =>
        show isPatchError (wrapArr (pyListPop xs i)) = false
        rw [isPatchError_wrapArr]
        exact pyListPop_not_patchError xs i

theorem mutAdd_not_patchError (v : Json) (parent : Json) (last : String) :
    isPatchError (mutAdd v parent last) = false := by
  cases parent <;> simp only [mutAdd] <;> try simp [isPatchError]
  case arr xs =>
    cases h : pyParseInt last with
    | none => simp [isPatchError]
    | some i => by_cases hi : i = (xs.length : Int) <;> simp [hi, isPatchError]

theorem mutReplace_not_patchError (v : Json) (parent : Json) (last : String) :
    isPatchError (mutReplace v parent last) = false := by
  cases parent <;> simp only [mutReplace] <;> try simp [isPatchError]
  case arr xs =>
    cases h : pyParseInt last with
    | none => simp [isPatchError]
    | some i =>
        show isPatchError (wrapArr (pyListSet xs i v)) = false
        rw [isPatchError_wrapArr]
        exact pyListSet_not_patchError xs i v

/-- `navApply` produces a `JsonPatchError` exactly when the intermediate
traversal hits a non-container, provided the final mutation itself never
produces one (which holds for all three op branches). -/
theorem navApply_patchError_eq (f : Json → String → Except PyErr Json)
    (hf : ∀ parent last, isPatchError (f parent last) = false)
    (doc : Json) (segs : List String) (last : String) :
    isPatchError (navApply f doc segs last) = reachesNonContainer doc segs := by
  induction segs generalizing doc with
  | nil => simp [navApply, reachesNonContainer, hf]
  | cons p rest ih =>
      cases doc with
      | arr xs =>
          simp only [navApply, reachesNonContainer]
          cases hp : pyParseInt p with
          | none => simp [isPatchError]
          | some i =>
              show isPatchError
                  (match pyListGet xs i with
                    | Except.error e => Except.error e
                    | Except.ok child =>
                        match navApply f child rest last with
                        | Except.error e => Except.error e
                        | Except.ok child' => wrapArr (pyListSet xs i child')) =
                (match pyListGet xs i with
                  | Except.ok child => reachesNonContainer child rest
                  | Except.error _ => false)
              cases hg : pyListGet xs i with
              | error e =>
                  show isPatchError (Except.error e : Except PyErr Json) = false
                  have := pyListGet_not_patchError xs i
                  rw [hg] at this
                  exact this
              | ok child =>
                  show isPatchError
                      (match navApply f child rest last with
                        | Except.error e => Except.error e
                        | Except.ok child' => wrapArr (pyListSet xs i child')) =
                    reachesNonContainer child rest
                  cases hn : navApply f child rest last with
                  | error e =>
                      show isPatchError (Except.error e : Except PyErr Json) =
                        reachesNonContainer child rest
                      have := ih child
                      rw [hn] at this
                      exact this
                  | ok child' =>
                      show isPatchError (wrapArr (pyListSet xs i child')) =
                        reachesNonContainer child rest
                      have h3 := ih child
                      rw [hn] at h3
                      rw [isPatchError_wrapArr, ← h3]
                      rw [pyListSet_not_patchError]
                      rfl
      | obj fs =>
          simp only [navApply, reachesNonContainer]
          cases hg : Json.objGet? fs p with
          | none =>
              show isPatchError (Except.error (PyErr.keyError p) : Except PyErr Json) = false
              rfl
          | some child =>
              show isPatchError
                  (match navApply f child rest last with
                    | Except.error e => Except.error e
                    | Except.ok child' => Except.ok (Json.obj (Json.objSet fs p child'))) =
                reachesNonContainer child rest
              cases hn : navApply f child rest last with
              | error e =>
                  show isPatchError (Except.error e : Except PyErr Json) =
                    reachesNonContainer child rest
                  have := ih child
                  rw [hn] at this
                  exact this
              | ok child' =>
                  show isPatchError
                      (Except.ok (Json.obj (Json.objSet fs p child')) : Except PyErr Json) =
                    reachesNonContainer child rest
                  have h3 := ih child
                  rw [hn] at h3
                  rw [← h3]
                  rfl
      | null => simp [navApply, reachesNonContainer, isPatchError]
      | bool b => simp [navApply, reachesNonContainer, isPatchError]
      | num n => simp [navApply, reachesNonContainer, isPatchError]
      | str s => simp [navApply, reachesNonContainer, isPatchError]

theorem splitPointer_error_iff (p : String) (e : PyErr) :
    splitPointer p = .error e ↔
      (p ≠ "" ∧ ¬ pyStartsWith p "/" ∧
        e = .patchError ("Invalid JSON pointer: " ++ p)) := by
  unfold splitPointer
  by_cases h1 : p = ""
  · simp [h1]
  · rw [if_neg h1]
    by_cases h2 : pyStartsWith p "/"
    · rw [if_neg (not_not_intro h2)]
      simp [h1, h2]
    · rw [if_pos h2]
      constructor
      · intro h
        injection h with h'
        exact ⟨h1, h2, h'.symm⟩
      · rintro ⟨-, -, rfl⟩
        rfl

theorem objPop_not_found (fs : List (String × Json)) (k : String)
    (h : Json.objHasKey fs k = false) : Json.objPop fs k = fs := by
  induction fs with
  | nil => rfl
  | cons hd tl ih =>
      obtain ⟨k', v'⟩ := hd
      by_cases hk : k' = k
      · exfalso
        simp [Json.objHasKey, List.find?, hk] at h
      · simp only [Json.objPop, if_neg hk]
        have h' : Json.objHasKey tl k = false := by
          simpa [Json.objHasKey, List.find?, hk] using h
        rw [ih h']

-- ---------------------------------------------------------------------------
-- Claim C6 (patch-engine failure cases) and C7 (patch examples)
-- ---------------------------------------------------------------------------

/-- **C6 counterexample**: the op `{op: "add", path: ""}` applied to `{}`
raises `JsonPatchError` ("Pointer must not be empty for parent/key lookup")
even though its op is supported, its path key is present, and no traversal
step reaches a non-container — so `PatchError` is *not* raised exactly in
the three cases the claim lists. -/
theorem C6_counterexample :
    applySingleOp (Json.obj []) ⟨some "add", some "", Json.null⟩
        = .error (.patchError "Pointer must not be empty for parent/key lookup.")
    ∧ ((some "add" : Option String) = some "add" ∨ (some "add" : Option String) = some "replace"
        ∨ (some "add" : Option String) = some "remove")
    ∧ (some "" ≠ (none : Option String))
    ∧ splitPointer "" = .ok []
    ∧ reachesNonContainer (Json.obj []) [] = false :=
  ⟨rfl, Or.inl rfl, by simp, rfl, rfl⟩

/-- **C6** (amended): a patch op raises `PatchError` exactly when its op is
unsupported, its path is missing, its path resolves to zero segments (the
empty pointer), its nonempty path does not start with `/`, or the traversal
of the intermediate segments reaches a non-container; and `remove` on an
object parent whose key is absent is a no-op, not a failure. -/
theorem C6_patch_error_cases :
    (∀ (doc : Json) (op : PatchOp),
      (∃ m, applySingleOp doc op = .error (.patchError m)) ↔
        (¬ (op.op = some "add" ∨ op.op = some "replace" ∨ op.op = some "remove")
          ∨ op.path = none
          ∨ (∃ p, op.path = some p ∧ splitPointer p = .ok [])
          ∨ (∃ p, op.path = some p ∧ p ≠ "" ∧ ¬ pyStartsWith p "/")
          ∨ (∃ p parts, op.path = some p ∧ splitPointer p = .ok parts ∧
              reachesNonContainer doc parts.dropLast = true)))
    ∧ (∀ (fs : List (String × Json)) (k : String),
        Json.objHasKey fs k = false → mutRemove (.obj fs) k = .ok (.obj fs)) := by
  constructor
  · intro doc op
    by_cases hop : (op.op = some "add" ∨ op.op = some "replace" ∨ op.op = some "remove")
    · rw [applySingleOp, if_neg (not_not_intro hop)]
      cases hpath : op.path with
      | none =>
          constructor
          · intro _
            exact Or.inr (Or.inl rfl)
          · intro _
            exact ⟨"Patch op missing 'path'", rfl⟩
      | some p =>
          change (∃ m, applyResolved doc op (splitPointer p) = .error (.patchError m)) ↔ _
          cases hsp : splitPointer p with
          | error e =>
              obtain ⟨hne, hns, he⟩ := (splitPointer_error_iff p e).mp hsp
              simp only [applyResolved]
              constructor
              · intro _
                exact Or.inr (Or.inr (Or.inr (Or.inl ⟨p, rfl, hne, hns⟩)))
              · intro _
                exact ⟨"Invalid JSON pointer: " ++ p, by rw [he]⟩
          | ok parts =>
              simp only [applyResolved, applyParts]
              cases hlast : parts.getLast? with
              | none =>
                  have hnil : parts = [] := List.getLast?_eq_none_iff.mp hlast
                  constructor
                  · intro _
                    exact Or.inr (Or.inr (Or.inl ⟨p, rfl, by rw [hsp, hnil]⟩))
                  · intro _
                    exact ⟨"Pointer must not be empty for parent/key lookup.", rfl⟩
              | some last =>
                  have hne : parts ≠ [] := by
                    intro hc
                    rw [hc] at hlast
                    cases hlast
                  change (∃ m,
                      (if op.op = some "remove" then
                        navApply mutRemove doc parts.dropLast last
                      else if op.op = some "add" then
                        navApply (mutAdd op.value) doc parts.dropLast last
                      else
                        navApply (mutReplace op.value) doc parts.dropLast last)
                      = .error (.patchError m)) ↔ _
                  have bridge : ∀ (g : Json → String → Except PyErr Json),
                      (∀ a b, isPatchError (g a b) = false) →
                      ((∃ m, navApply g doc parts.dropLast last = .error (.patchError m)) ↔
                        reachesNonContainer doc parts.dropLast = true) := by
                    intro g hg
                    rw [← isPatchError_iff, navApply_patchError_eq g hg]
                  have rhs_iff :
                      (¬ (op.op = some "add" ∨ op.op = some "replace" ∨ op.op = some "remove")
                        ∨ (some p : Option String) = none
                        ∨ (∃ q, (some p : Option String) = some q ∧ splitPointer q = .ok [])
                        ∨ (∃ q, (some p : Option String) = some q ∧ q ≠ "" ∧
                            ¬ pyStartsWith q "/")
                        ∨ (∃ q qarts, (some p : Option String) = some q ∧
                            splitPointer q = .ok qarts ∧
                            reachesNonContainer doc qarts.dropLast = true)) ↔
                      reachesNonContainer doc parts.dropLast = true := by
                    constructor
                    · intro h
                      rcases h with h | h | ⟨q, hq, hq2⟩ | ⟨q, hq, hq2, hq3⟩ |
                        ⟨q, qarts, hq, hq2, hq3⟩
                      · exact absurd hop h
                      · cases h
                      · cases hq
                        rw [hsp] at hq2
                        cases hq2
                        exact absurd rfl hne
                      · cases hq
                        have := (splitPointer_error_iff p
                          (.patchError ("Invalid JSON pointer: " ++ p))).mpr ⟨hq2, hq3, rfl⟩
                        rw [hsp] at this
                        cases this
                      · cases hq
                        rw [hsp] at hq2
                        cases hq2
                        exact hq3
                    · intro h
                      exact Or.inr (Or.inr (Or.inr (Or.inr ⟨p, parts, rfl, hsp, h⟩)))
                  obtain ⟨g, hg, heq⟩ : ∃ g, (∀ a b, isPatchError (g a b) = false) ∧
                      (if op.op = some "remove" then
                        navApply mutRemove doc parts.dropLast last
                      else if op.op = some "add" then
                        navApply (mutAdd op.value) doc parts.dropLast last
                      else
                        navApply (mutReplace op.value) doc parts.dropLast last)
                      = navApply g doc parts.dropLast last := by
                    by_cases h1 : op.op = some "remove"
                    · exact ⟨mutRemove, fun a b => mutRemove_not_patchError a b,
                        by rw [if_pos h1]⟩
                    · by_cases h2 : op.op = some "add"
                      · exact ⟨mutAdd op.value, fun a b => mutAdd_not_patchError op.value a b,
                          by rw [if_neg h1, if_pos h2]⟩
                      · exact ⟨mutReplace op.value,
                          fun a b => mutReplace_not_patchError op.value a b,
                          by rw [if_neg h1, if_neg h2]⟩
                  simp only [heq]
                  exact (bridge g hg).trans rhs_iff.symm
    · rw [applySingleOp, if_pos hop]
      constructor
      · intro _
        exact Or.inl hop
      · intro _
        exact ⟨"Unsupported op", rfl⟩
  · intro fs k h
    simp only [mutRemove]
    rw [objPop_not_found fs k h]

/-- Witness for C6: a concrete unsupported op raises `PatchError`, and a
concrete `remove` of an absent object key is a no-op. -/
theorem C6_patch_error_cases_witness :
    (∃ m, applySingleOp (Json.obj []) ⟨some "move", some "/a", Json.null⟩
        = .error (.patchError m))
    ∧ mutRemove (Json.obj [("a", Json.null)]) "b" = .ok (.obj [("a", Json.null)]) := by
  constructor
  · exact (C6_patch_error_cases.1 (Json.obj []) ⟨some "move", some "/a", Json.null⟩).mpr
      (Or.inl (by simp))
  · exact C6_patch_error_cases.2 [("a", Json.null)] "b" (by decide)

/-- **C7**: removing `/a/0` from `{"a":[1,2,3]}` gives `{"a":[2,3]}`; adding
`9` at `/a/1` gives `{"a":[1,9,2,3]}`; and in general `add` on an array
appends when the (in-range, non-negative) index equals the length and
otherwise inserts before that index. -/
theorem C7_patch_examples :
    (applyJsonPatch (Json.obj [("a", Json.arr [Json.num 1, Json.num 2, Json.num 3])])
        [⟨some "remove", some "/a/0", Json.null⟩]
      = .ok (Json.obj [("a", Json.arr [Json.num 2, Json.num 3])]))
    ∧ (applyJsonPatch (Json.obj [("a", Json.arr [Json.num 1, Json.num 2, Json.num 3])])
        [⟨some "add", some "/a/1", Json.num 9⟩]
      = .ok (Json.obj [("a", Json.arr [Json.num 1, Json.num 9, Json.num 2, Json.num 3])]))
    ∧ (∀ (xs : List Json) (v : Json) (s : String) (i : Int),
        pyParseInt s = some i → 0 ≤ i → i ≤ (xs.length : Int) →
        mutAdd v (.arr xs) s =
          .ok (.arr (if i = (xs.length : Int) then xs ++ [v] else xs.insertIdx i.toNat v))) := by
  refine ⟨rfl, rfl, ?_⟩
  intro xs v s i hs h0 hlen
  simp only [mutAdd, hs]
  by_cases hi : i = (xs.length : Int)
  · rw [if_pos hi]
    rw [if_pos hi]
  · rw [if_neg hi]
    simp only [pyListInsert]
    rw [if_neg (by omega : ¬ i < 0), min_eq_left hlen]
    rw [if_neg hi]

/-- Witness for C7: the general `add` clause instantiated at index 1 of a
two-element array. -/
theorem C7_patch_examples_witness :
    mutAdd (Json.num 9) (Json.arr [Json.num 1, Json.num 2]) "1"
      = .ok (.arr (if (1 : Int) = (([Json.num 1, Json.num 2].length : Nat) : Int)
          then [Json.num 1, Json.num 2] ++ [Json.num 9]
          else [Json.num 1, Json.num 2].insertIdx (1 : Int).toNat (Json.num 9))) :=
  C7_patch_examples.2.2 [Json.num 1, Json.num 2] (Json.num 9) "1" 1 rfl (by decide) (by decide)

-- ---------------------------------------------------------------------------
-- Lemmas about the normalizer
-- ---------------------------------------------------------------------------

theorem objGet_objSet_self (fs : List (String × Json)) (k : String) (v : Json) :
    Json.objGet? (Json.objSet fs k v) k = some v := by
  induction fs with
  | nil => simp [Json.objSet, Json.objGet?, List.find?]
  | cons hd tl ih =>
      obtain ⟨k', v'⟩ := hd
      by_cases hk : k' = k
      · simp [Json.objSet, hk, Json.objGet?, List.find?]
      · simp only [Json.objSet, if_neg hk]
        simpa [Json.objGet?, List.find?, hk] using ih

theorem objGet_objSet_ne (fs : List (String × Json)) {k k' : String} (h : k ≠ k')
    (v : Json) : Json.objGet? (Json.objSet fs k v) k' = Json.objGet? fs k' := by
  induction fs with
  | nil => simp [Json.objSet, Json.objGet?, List.find?, h]
  | cons hd tl ih =>
      obtain ⟨k0, v0⟩ := hd
      by_cases hk : k0 = k
      · subst hk
        simp [Json.objSet, Json.objGet?, List.find?, h]
      · simp only [Json.objSet, if_neg hk]
        by_cases hk' : k0 = k'
        · simp [Json.objGet?, List.find?, hk']
        · simpa [Json.objGet?, List.find?, hk'] using ih

theorem objGet_condDefault (q : List (String × Json)) (key : String) (v : Json)
    (k : String) (h : key ≠ k) :
    Json.objGet? (if Json.objHasKey q key then q else Json.objSet q key v) k =
      Json.objGet? q k := by
  split
  · rfl
  · exact objGet_objSet_ne q h v

theorem truthy_ne_null (v : Json) (h : v.truthy = true) : v ≠ .null := by
  intro hc
  rw [hc] at h
  simp [Json.truthy] at h

theorem orEmptyList_ne_null (v : Json) : orEmptyList v ≠ .null := by
  unfold orEmptyList
  split
  · exact truthy_ne_null v (by assumption)
  · intro hc
    cases hc

theorem isEmptyArr_sound (v : Json) (h : Json.isEmptyArr v = true) : v = .arr [] := by
  cases v with
  | arr xs =>
      cases xs with
      | nil => rfl
      | cons x xs => simp [Json.isEmptyArr] at h
  | null => simp [Json.isEmptyArr] at h
  | bool b => simp [Json.isEmptyArr] at h
  | num n => simp [Json.isEmptyArr] at h
  | str s => simp [Json.isEmptyArr] at h
  | obj fs => simp [Json.isEmptyArr] at h

/-- `nqDefaults` leaves a key that it never writes unchanged. -/
theorem nqDefaults_get_ne (q : List (String × Json)) (k : String)
    (h1 : k ≠ "options") (h2 : k ≠ "rows") (h3 : k ≠ "columns")
    (h4 : k ≠ "display_logic") (h5 : k ≠ "piping") (h6 : k ≠ "required")
    (h7 : k ≠ "notes") :
    Json.objGet? (nqDefaults q) k = Json.objGet? q k := by
  simp only [nqDefaults]
  rw [objGet_condDefault _ _ _ _ (Ne.symm h7), objGet_condDefault _ _ _ _ (Ne.symm h6),
    objGet_condDefault _ _ _ _ (Ne.symm h5), objGet_condDefault _ _ _ _ (Ne.symm h4),
    objGet_condDefault _ _ _ _ (Ne.symm h3), objGet_condDefault _ _ _ _ (Ne.symm h2)]
  cases hopt : Json.objGet? q "options" with
  | none => exact objGet_objSet_ne q (Ne.symm h1) _
  | some v =>
      cases v with
      | arr l => rfl
      | null => exact objGet_objSet_ne q (Ne.symm h1) _
      | bool b => exact objGet_objSet_ne q (Ne.symm h1) _
      | num n => exact objGet_objSet_ne q (Ne.symm h1) _
      | str t => exact objGet_objSet_ne q (Ne.symm h1) _
      | obj fs => exact objGet_objSet_ne q (Ne.symm h1) _

/-- After `nqDefaults`, `options` is always an array; a pre-existing array
value is kept. -/
theorem nqDefaults_options (q : List (String × Json)) :
    ∃ l, Json.objGet? (nqDefaults q) "options" = some (.arr l) ∧
      (∀ l0, Json.objGet? q "options" = some (.arr l0) → l = l0) := by
  simp only [nqDefaults]
  rw [objGet_condDefault _ _ _ _ (by decide), objGet_condDefault _ _ _ _ (by decide),
    objGet_condDefault _ _ _ _ (by decide), objGet_condDefault _ _ _ _ (by decide),
    objGet_condDefault _ _ _ _ (by decide), objGet_condDefault _ _ _ _ (by decide)]
  cases hopt : Json.objGet? q "options" with
  | none =>
      refine ⟨[], ?_, ?_⟩
      · rw [objGet_objSet_self]
      · intro l0 h0
        cases h0
  | some v =>
      cases v with
      | arr l =>
          refine ⟨l, hopt, ?_⟩
          intro l0 h0
          cases h0
          rfl
      | null =>
          refine ⟨[], by rw [objGet_objSet_self], ?_⟩
          intro l0 h0
          simp at h0
      | bool b =>
          refine ⟨[], by rw [objGet_objSet_self], ?_⟩
          intro l0 h0
          simp at h0
      | num n =>
          refine ⟨[], by rw [objGet_objSet_self], ?_⟩
          intro l0 h0
          simp at h0
      | str t =>
          refine ⟨[], by rw [objGet_objSet_self], ?_⟩
          intro l0 h0
          simp at h0
      | obj fs =>
          refine ⟨[], by rw [objGet_objSet_self], ?_⟩
          intro l0 h0
          simp at h0

theorem addIssue_issues (st : NormState) (ec jp msg : String)
    (fref : List (String × Json)) (frag : Json) :
    (addIssue st ec jp msg fref frag).issues =
      st.issues ++
        [⟨issueIdOf (st.counter + 1),
          fingerprintOf ec jp (Json.objGetD fref "question_id" .null), ec, jp, msg,
          fref, frag⟩] := rfl

theorem nqOptionsArray_on_arr (q : List (String × Json)) (path : String)
    (fref : List (String × Json)) (st : NormState) (l : List Json)
    (h : Json.objGet? q "options" = some (.arr l)) :
    nqOptionsArray q path fref st = (q, st) := by
  unfold nqOptionsArray
  rw [h]

theorem nqOptionsRequired_issues_ext (q : List (String × Json)) (path : String)
    (fref : List (String × Json)) (st : NormState) :
    ∃ suf, (nqOptionsRequired q path fref st).issues = st.issues ++ suf := by
  unfold nqOptionsRequired
  split
  · split
    · exact ⟨_, addIssue_issues ..⟩
    · exact ⟨[], by simp⟩
  · exact ⟨[], by simp⟩

theorem nqMatrixRowsCols_issues_ext (q : List (String × Json)) (path : String)
    (fref : List (String × Json)) (st : NormState) :
    ∃ suf, ((nqMatrixRowsCols q path fref st).2).issues = st.issues ++ suf := by
  unfold nqMatrixRowsCols
  split
  · split
    · exact ⟨_, addIssue_issues ..⟩
    · exact ⟨[], by simp⟩
  · split
    · exact ⟨[], by simp⟩
    · exact ⟨[], by simp⟩

theorem objGet_none_of_not_hasKey (fs : List (String × Json)) (k : String)
    (h : Json.objHasKey fs k = false) : Json.objGet? fs k = none := by
  unfold Json.objHasKey at h
  unfold Json.objGet?
  cases hf : fs.find? (fun p => p.1 = k) with
  | none => rfl
  | some p => rw [hf] at h; simp at h

theorem objGetD_objSet_self (fs : List (String × Json)) (k : String) (v d : Json) :
    Json.objGetD (Json.objSet fs k v) k d = v := by
  unfold Json.objGetD
  rw [objGet_objSet_self]
  rfl

theorem objGetD_objSet_ne (fs : List (String × Json)) {k k' : String} (h : k ≠ k')
    (v d : Json) : Json.objGetD (Json.objSet fs k v) k' d = Json.objGetD fs k' d := by
  unfold Json.objGetD
  rw [objGet_objSet_ne fs h v]

theorem objGetD_condDefault_ne (q : List (String × Json)) (key : String) (v : Json)
    (k : String) (h : key ≠ k) (d : Json) :
    Json.objGetD (if Json.objHasKey q key then q else Json.objSet q key v) k d =
      Json.objGetD q k d := by
  unfold Json.objGetD
  rw [objGet_condDefault q key v k h]

theorem objGetD_condDefault_self_null (q : List (String × Json)) (key : String) :
    Json.objGetD (if Json.objHasKey q key then q else Json.objSet q key .null) key .null =
      Json.objGetD q key .null := by
  split
  · rfl
  · rename_i h
    rw [objGetD_objSet_self]
    unfold Json.objGetD
    rw [objGet_none_of_not_hasKey q key (by simpa using h)]
    rfl

/-- `nqDefaults` does not change the null-defaulted reads of `rows`,
`columns` and `question_type`. -/
theorem nqDefaults_getD_rows (q : List (String × Json)) :
    Json.objGetD (nqDefaults q) "rows" .null = Json.objGetD q "rows" .null := by
  simp only [nqDefaults]
  rw [objGetD_condDefault_ne _ _ _ _ (by decide), objGetD_condDefault_ne _ _ _ _ (by decide),
    objGetD_condDefault_ne _ _ _ _ (by decide), objGetD_condDefault_ne _ _ _ _ (by decide),
    objGetD_condDefault_ne _ _ _ _ (by decide), objGetD_condDefault_self_null]
  cases hopt : Json.objGet? q "options" with
  | none => exact objGetD_objSet_ne q (by decide) _ _
  | some v =>
      cases v with
      | arr l => rfl
      | null => exact objGetD_objSet_ne q (by decide) _ _
      | bool b => exact objGetD_objSet_ne q (by decide) _ _
      | num n => exact objGetD_objSet_ne q (by decide) _ _
      | str t => exact objGetD_objSet_ne q (by decide) _ _
      | obj fs => exact objGetD_objSet_ne q (by decide) _ _

theorem nqDefaults_getD_cols (q : List (String × Json)) :
    Json.objGetD (nqDefaults q) "columns" .null = Json.objGetD q "columns" .null := by
  simp only [nqDefaults]
  rw [objGetD_condDefault_ne _ _ _ _ (by decide), objGetD_condDefault_ne _ _ _ _ (by decide),
    objGetD_condDefault_ne _ _ _ _ (by decide), objGetD_condDefault_ne _ _ _ _ (by decide),
    objGetD_condDefault_self_null, objGetD_condDefault_ne _ _ _ _ (by decide)]
  cases hopt : Json.objGet? q "options" with
  | none => exact objGetD_objSet_ne q (by decide) _ _
  | some v =>
      cases v with
      | arr l => rfl
      | null => exact objGetD_objSet_ne q (by decide) _ _
      | bool b => exact objGetD_objSet_ne q (by decide) _ _
      | num n => exact objGetD_objSet_ne q (by decide) _ _
      | str t => exact objGetD_objSet_ne q (by decide) _ _
      | obj fs => exact objGetD_objSet_ne q (by decide) _ _

theorem nqDefaults_getD_qtype (q : List (String × Json)) :
    Json.objGetD (nqDefaults q) "question_type" .null =
      Json.objGetD q "question_type" .null := by
  unfold Json.objGetD
  rw [nqDefaults_get_ne q _ (by decide) (by decide) (by decide) (by decide) (by decide)
    (by decide) (by decide)]

/-- `nqOptionsMustBeEmpty` only ever rewrites `options`, and only ever
appends issues. -/
theorem nqOptionsMustBeEmpty_shape (q : List (String × Json)) (path : String)
    (fref : List (String × Json)) (st : NormState) :
    ((nqOptionsMustBeEmpty q path fref st).1 = q ∨
      (nqOptionsMustBeEmpty q path fref st).1 = Json.objSet q "options" (.arr [])) ∧
    ∃ suf, ((nqOptionsMustBeEmpty q path fref st).2).issues = st.issues ++ suf := by
  unfold nqOptionsMustBeEmpty
  split
  · split
    · exact ⟨Or.inr rfl, _, addIssue_issues ..⟩
    · exact ⟨Or.inl rfl, [], by simp⟩
  · exact ⟨Or.inl rfl, [], by simp⟩

-- ---------------------------------------------------------------------------
-- Claim C5 (no silent coercion) and C9 (missing top-level keys)
-- ---------------------------------------------------------------------------

theorem exists_mem_append_left {α : Type} {P : α → Prop} {l1 : List α} (l2 : List α)
    (h : ∃ x ∈ l1, P x) : ∃ x ∈ l1 ++ l2, P x := by
  obtain ⟨x, hx, hp⟩ := h
  exact ⟨x, List.mem_append_left _ hx, hp⟩

theorem mem_last_addIssue (st : NormState) (ec jp msg : String)
    (fref : List (String × Json)) (frag : Json) :
    ∃ issue ∈ (addIssue st ec jp msg fref frag).issues,
      issue.error_code = ec ∧ issue.json_path = jp := by
  refine ⟨⟨issueIdOf (st.counter + 1),
    fingerprintOf ec jp (Json.objGetD fref "question_id" .null), ec, jp, msg, fref, frag⟩,
    ?_, rfl, rfl⟩
  rw [addIssue_issues]
  simp

/-- **C5 counterexample**: normalising `c5Survey` changes the question's
existing `rows` field from `["a"]` to `null` (its canonical default for a
non-matrix question) yet returns an *empty* issue list — a silent coercion,
contradicting the claim that every field-value change appends a
`ValidationIssue`. -/
theorem C5_counterexample :
    Json.objGetD c5Question "rows" .null = .arr [.str "a"]
    ∧ validateAndNormalise c5Survey = .ok (c5SurveyOut, [])
    ∧ collectQuestions c5SurveyOut = [.obj c5QuestionOut]
    ∧ Json.objGetD c5QuestionOut "rows" .null = .null
    ∧ Json.objGetD c5QuestionOut "question_id" .null = .str "SCR_Q1" :=
  ⟨rfl, rfl, rfl, rfl, rfl⟩

set_option maxHeartbeats 1600000 in
/-- **C5** (amended): the normalizer emits an issue for the coercions the
spec describes — emptying a non-empty list-valued `options` on an
open_ended/matrix/numeric_input question, and defaulting a matrix question's
falsy `rows`/`columns` — but clearing `rows`/`columns` to null on non-matrix
questions (and replacing a non-list `options` value by `[]`) happens without
an issue. -/
theorem C5_coercions_emit_issues :
    (∀ (q : List (String × Json)) (path : String) (fref : List (String × Json))
        (st : NormState) (l : List Json),
      Json.objGet? q "options" = some (.arr l) → l ≠ [] →
      qtypeIn (Json.objGetD q "question_type" .null)
        ["open_ended", "matrix", "numeric_input"] = true →
      ∃ issue ∈ ((normQuestion q path fref st).2).issues,
        issue.error_code = "E_OPTIONS_MUST_BE_EMPTY" ∧
        issue.json_path = path ++ "/options")
    ∧ (∀ (q : List (String × Json)) (path : String) (fref : List (String × Json))
        (st : NormState),
      (Json.objGetD q "question_type" .null).isStr "matrix" = true →
      (¬ (Json.objGetD q "rows" .null).truthy = true
        ∨ ¬ (Json.objGetD q "columns" .null).truthy = true) →
      ∃ issue ∈ ((normQuestion q path fref st).2).issues,
        issue.error_code = "E_MATRIX_MISSING_ROWS_COLS" ∧
        issue.json_path = path) := by
  constructor
  · intro q path fref st l hopt hne hty
    obtain ⟨l1, hopt1, hspec⟩ := nqDefaults_options q
    rw [hspec l hopt] at hopt1
    obtain ⟨x, xs, hxl⟩ := List.exists_cons_of_ne_nil hne
    have hqt1 : Json.objGetD (nqDefaults q) "question_type" .null =
        Json.objGetD q "question_type" .null := nqDefaults_getD_qtype q
    have hoptsD : Json.objGetD (nqDefaults q) "options" .null = .arr l := by
      unfold Json.objGetD
      rw [hopt1]
      rfl
    have hbeq : Json.isEmptyArr (Json.objGetD (nqDefaults q) "options" .null) = false := by
      rw [hoptsD, hxl]
      rfl
    rw [normQuestion]
    rw [show nqStep3 path fref (nqDefaults q,
          nqTypeCheck (nqDefaults q) path fref (nqHardRequired q path fref st)) =
        (nqDefaults q, nqTypeCheck (nqDefaults q) path fref (nqHardRequired q path fref st))
      from nqOptionsArray_on_arr _ path fref _ l hopt1]
    have h4 : nqStep4 path fref (nqDefaults q,
        nqTypeCheck (nqDefaults q) path fref (nqHardRequired q path fref st)) =
        (Json.objSet (nqDefaults q) "options" (.arr []),
          addIssue (nqTypeCheck (nqDefaults q) path fref (nqHardRequired q path fref st))
            "E_OPTIONS_MUST_BE_EMPTY" (path ++ "/options")
            ("For question_type '" ++
              pyStrOf (Json.objGetD (nqDefaults q) "question_type" .null) ++
              "', options must be [].") fref (.obj (nqDefaults q))) := by
      unfold nqStep4 nqOptionsMustBeEmpty
      rw [if_pos (by rw [hqt1]; exact hty), if_pos (by rw [hbeq]; simp)]
    rw [h4]
    obtain ⟨suf1, h5a⟩ := nqOptionsRequired_issues_ext
      (Json.objSet (nqDefaults q) "options" (.arr [])) path fref
      (addIssue (nqTypeCheck (nqDefaults q) path fref (nqHardRequired q path fref st))
        "E_OPTIONS_MUST_BE_EMPTY" (path ++ "/options")
        ("For question_type '" ++
          pyStrOf (Json.objGetD (nqDefaults q) "question_type" .null) ++
          "', options must be [].") fref (.obj (nqDefaults q)))
    obtain ⟨suf2, h5b⟩ := nqMatrixRowsCols_issues_ext
      (Json.objSet (nqDefaults q) "options" (.arr [])) path fref
      (nqOptionsRequired (Json.objSet (nqDefaults q) "options" (.arr [])) path fref
        (addIssue (nqTypeCheck (nqDefaults q) path fref (nqHardRequired q path fref st))
          "E_OPTIONS_MUST_BE_EMPTY" (path ++ "/options")
          ("For question_type '" ++
            pyStrOf (Json.objGetD (nqDefaults q) "question_type" .null) ++
            "', options must be [].") fref (.obj (nqDefaults q))))
    unfold nqStep5
    rw [h5b, h5a]
    exact exists_mem_append_left _ (exists_mem_append_left _ (mem_last_addIssue ..))
  · intro q path fref st hmat hrc
    obtain ⟨l1, hopt1, -⟩ := nqDefaults_options q
    have hqt1 := nqDefaults_getD_qtype q
    have hrows1 := nqDefaults_getD_rows q
    have hcols1 := nqDefaults_getD_cols q
    rw [normQuestion]
    rw [show nqStep3 path fref (nqDefaults q,
          nqTypeCheck (nqDefaults q) path fref (nqHardRequired q path fref st)) =
        (nqDefaults q, nqTypeCheck (nqDefaults q) path fref (nqHardRequired q path fref st))
      from nqOptionsArray_on_arr _ path fref _ l1 hopt1]
    obtain ⟨hshape, suf0, hiss0⟩ := nqOptionsMustBeEmpty_shape (nqDefaults q) path fref
      (nqTypeCheck (nqDefaults q) path fref (nqHardRequired q path fref st))
    have hq4qt : Json.objGetD ((nqStep4 path fref (nqDefaults q,
        nqTypeCheck (nqDefaults q) path fref (nqHardRequired q path fref st))).1)
        "question_type" .null = Json.objGetD q "question_type" .null := by
      unfold nqStep4
      rcases hshape with h | h
      · rw [h, hqt1]
      · rw [h, objGetD_objSet_ne _ (by decide), hqt1]
    have hq4rows : Json.objGetD ((nqStep4 path fref (nqDefaults q,
        nqTypeCheck (nqDefaults q) path fref (nqHardRequired q path fref st))).1)
        "rows" .null = Json.objGetD q "rows" .null := by
      unfold nqStep4
      rcases hshape with h | h
      · rw [h, hrows1]
      · rw [h, objGetD_objSet_ne _ (by decide), hrows1]
    have hq4cols : Json.objGetD ((nqStep4 path fref (nqDefaults q,
        nqTypeCheck (nqDefaults q) path fref (nqHardRequired q path fref st))).1)
        "columns" .null = Json.objGetD q "columns" .null := by
      unfold nqStep4
      rcases hshape with h | h
      · rw [h, hcols1]
      · rw [h, objGetD_objSet_ne _ (by decide), hcols1]
    unfold nqStep5
    unfold nqMatrixRowsCols
    rw [if_pos (by rw [hq4qt]; exact hmat)]
    rw [if_pos (by rw [hq4rows, hq4cols]; exact hrc)]
    exact mem_last_addIssue ..

/-- Witness for C5: both amended clauses at concrete questions. -/
theorem C5_coercions_emit_issues_witness :
    (∃ issue ∈ ((normQuestion
        [("question_type", Json.str "open_ended"), ("options", Json.arr [Json.str "a"])]
        "/Q" [] NormState.initial).2).issues,
      issue.error_code = "E_OPTIONS_MUST_BE_EMPTY" ∧ issue.json_path = "/Q" ++ "/options")
    ∧ (∃ issue ∈ ((normQuestion [("question_type", Json.str "matrix")]
        "/M" [] NormState.initial).2).issues,
      issue.error_code = "E_MATRIX_MISSING_ROWS_COLS" ∧ issue.json_path = "/M") := by
  constructor
  · exact C5_coercions_emit_issues.1
      [("question_type", Json.str "open_ended"), ("options", Json.arr [Json.str "a"])]
      "/Q" [] NormState.initial [Json.str "a"] rfl (by simp) (by decide)
  · exact C5_coercions_emit_issues.2 [("question_type", Json.str "matrix")]
      "/M" [] NormState.initial (by decide) (Or.inl (by decide))

/-- The key-check loop on a dict survey: it never fails, and appends exactly
one missing-key issue per absent key, in key order. -/
theorem topKeyGo_obj (fields : List (String × Json)) (ks : List String) (st : NormState) :
    ∃ st', topKeyGo (.obj fields) ks st = .ok st' ∧
      st'.issues.map (fun i => (i.error_code, i.json_path, i.message)) =
        st.issues.map (fun i => (i.error_code, i.json_path, i.message)) ++
          (ks.filter (fun k => !(Json.objHasKey fields k))).map
            (fun k => ("E_TOPLEVEL_MISSING_KEY", "/" ++ k,
              "Missing top-level key '" ++ k ++ "'.")) := by
  induction ks generalizing st with
  | nil => exact ⟨st, rfl, by simp⟩
  | cons k rest ih =>
      by_cases hk : Json.objHasKey fields k = true
      · obtain ⟨st', h1, h2⟩ := ih st
        refine ⟨st', ?_, ?_⟩
        · show topKeyGo (.obj fields) (k :: rest) st = .ok st'
          unfold topKeyGo
          show topKeyGo (.obj fields) rest
              (if Json.objHasKey fields k = true then st
               else addIssue st "E_TOPLEVEL_MISSING_KEY" ("/" ++ k)
                ("Missing top-level key '" ++ k ++ "'.")
                [("section", .str k)] (.obj [("missing_key", .str k)])) = .ok st'
          rw [if_pos hk]
          exact h1
        · rw [h2]
          simp [hk]
      · have hk' : Json.objHasKey fields k = false := by simpa using hk
        obtain ⟨st', h1, h2⟩ := ih (addIssue st "E_TOPLEVEL_MISSING_KEY" ("/" ++ k)
          ("Missing top-level key '" ++ k ++ "'.")
          [("section", .str k)] (.obj [("missing_key", .str k)]))
        refine ⟨st', ?_, ?_⟩
        · show topKeyGo (.obj fields) (k :: rest) st = .ok st'
          unfold topKeyGo
          show topKeyGo (.obj fields) rest
              (if Json.objHasKey fields k = true then st
               else addIssue st "E_TOPLEVEL_MISSING_KEY" ("/" ++ k)
                ("Missing top-level key '" ++ k ++ "'.")
                [("section", .str k)] (.obj [("missing_key", .str k)])) = .ok st'
          rw [if_neg (by simp [hk'])]
          exact h1
        · rw [h2, addIssue_issues]
          simp [hk']

/-- **C9**: on a dict survey missing at least one required top-level key,
`validate_and_normalise` returns the document unchanged together with
exactly one missing-key issue per absent key (in declaration order) and
nothing else — no per-question normalization runs. -/
theorem C9_missing_top_level_keys (fields : List (String × Json))
    (h : (requiredTopLevelKeys.filter (fun k => !(Json.objHasKey fields k))) ≠ []) :
    ∃ issues, validateAndNormalise (.obj fields) = .ok (.obj fields, issues) ∧
      issues.map (fun i => (i.error_code, i.json_path, i.message)) =
        (requiredTopLevelKeys.filter (fun k => !(Json.objHasKey fields k))).map
          (fun k => ("E_TOPLEVEL_MISSING_KEY", "/" ++ k,
            "Missing top-level key '" ++ k ++ "'.")) := by
  obtain ⟨st', h1, h2⟩ := topKeyGo_obj fields requiredTopLevelKeys NormState.initial
  simp only [NormState.initial, List.map_nil, List.nil_append] at h2
  have hne : ¬ st'.issues.isEmpty = true := by
    intro hc
    have hz : st'.issues = [] := by simpa [List.isEmpty_iff] using hc
    rw [hz] at h2
    have h3 := h2.symm
    simp only [List.map_nil] at h3
    rw [List.map_eq_nil_iff] at h3
    exact h h3
  refine ⟨st'.issues, ?_, h2⟩
  unfold validateAndNormalise
  rw [h1]
  simp only [if_pos hne]

/-- Witness for C9: a survey with only STUDY_METADATA present. -/
theorem C9_missing_top_level_keys_witness :
    ∃ issues, validateAndNormalise (.obj [("STUDY_METADATA", Json.obj [])])
        = .ok (.obj [("STUDY_METADATA", Json.obj [])], issues) ∧
      issues.map (fun i => (i.error_code, i.json_path, i.message)) =
        (requiredTopLevelKeys.filter
            (fun k => !(Json.objHasKey [("STUDY_METADATA", Json.obj [])] k))).map
          (fun k => ("E_TOPLEVEL_MISSING_KEY", "/" ++ k,
            "Missing top-level key '" ++ k ++ "'.")) :=
  C9_missing_top_level_keys [("STUDY_METADATA", Json.obj [])] (by decide)

theorem nqOptionsMustBeEmpty_post (q : List (String × Json)) (path : String)
    (fref : List (String × Json)) (st : NormState)
    (hty : qtypeIn (Json.objGetD q "question_type" .null)
      ["open_ended", "matrix", "numeric_input"] = true) :
    Json.objGetD ((nqOptionsMustBeEmpty q path fref st).1) "options" .null = .arr [] := by
  unfold nqOptionsMustBeEmpty
  rw [if_pos hty]
  by_cases he : Json.isEmptyArr (Json.objGetD q "options" .null) = true
  · rw [if_neg (by simp [he])]
    exact isEmptyArr_sound _ he
  · rw [if_pos (by simpa using he)]
    show Json.objGetD (Json.objSet q "options" (.arr [])) "options" .null = .arr []
    rw [objGetD_objSet_self]

theorem nqOptionsMustBeEmpty_qtype (q : List (String × Json)) (path : String)
    (fref : List (String × Json)) (st : NormState) :
    Json.objGetD ((nqOptionsMustBeEmpty q path fref st).1) "question_type" .null =
      Json.objGetD q "question_type" .null := by
  obtain ⟨hshape, -⟩ := nqOptionsMustBeEmpty_shape q path fref st
  rcases hshape with h | h
  · rw [h]
  · rw [h, objGetD_objSet_ne _ (by decide)]

theorem nqMatrixRowsCols_opts (q : List (String × Json)) (path : String)
    (fref : List (String × Json)) (st : NormState) :
    Json.objGetD ((nqMatrixRowsCols q path fref st).1) "options" .null =
      Json.objGetD q "options" .null := by
  unfold nqMatrixRowsCols
  split
  · split
    · show Json.objGetD (Json.objSet (Json.objSet q "rows" _) "columns" _) "options" .null = _
      rw [objGetD_objSet_ne _ (by decide), objGetD_objSet_ne _ (by decide)]
    · rfl
  · split
    · show Json.objGetD (Json.objSet (Json.objSet q "rows" _) "columns" _) "options" .null = _
      rw [objGetD_objSet_ne _ (by decide), objGetD_objSet_ne _ (by decide)]
    · rfl

theorem nqMatrixRowsCols_qtype (q : List (String × Json)) (path : String)
    (fref : List (String × Json)) (st : NormState) :
    Json.objGetD ((nqMatrixRowsCols q path fref st).1) "question_type" .null =
      Json.objGetD q "question_type" .null := by
  unfold nqMatrixRowsCols
  split
  · split
    · show Json.objGetD (Json.objSet (Json.objSet q "rows" _) "columns" _) "question_type"
        .null = _
      rw [objGetD_objSet_ne _ (by decide), objGetD_objSet_ne _ (by decide)]
    · rfl
  · split
    · show Json.objGetD (Json.objSet (Json.objSet q "rows" _) "columns" _) "question_type"
        .null = _
      rw [objGetD_objSet_ne _ (by decide), objGetD_objSet_ne _ (by decide)]
    · rfl

theorem nqMatrixRowsCols_post (q : List (String × Json)) (path : String)
    (fref : List (String × Json)) (st : NormState)
    (hm : (Json.objGetD q "question_type" .null).isStr "matrix" = true) :
    Json.objGetD ((nqMatrixRowsCols q path fref st).1) "rows" .null ≠ .null ∧
    Json.objGetD ((nqMatrixRowsCols q path fref st).1) "columns" .null ≠ .null := by
  unfold nqMatrixRowsCols
  rw [if_pos hm]
  by_cases hrc : (¬ (Json.objGetD q "rows" .null).truthy = true
      ∨ ¬ (Json.objGetD q "columns" .null).truthy = true)
  · rw [if_pos hrc]
    constructor
    · show Json.objGetD (Json.objSet (Json.objSet q "rows" _) "columns" _) "rows" .null ≠ _
      rw [objGetD_objSet_ne _ (by decide), objGetD_objSet_self]
      exact orEmptyList_ne_null _
    · show Json.objGetD (Json.objSet (Json.objSet q "rows" _) "columns" _) "columns" .null ≠ _
      rw [objGetD_objSet_self]
      exact orEmptyList_ne_null _
  · rw [if_neg hrc]
    push_neg at hrc
    exact ⟨truthy_ne_null _ hrc.1, truthy_ne_null _ hrc.2⟩

/-- The invariant established by `norm_question` on every question it
returns. -/
theorem normQuestion_questionOk (q : List (String × Json)) (path : String)
    (fref : List (String × Json)) (st : NormState) :
    questionOk ((normQuestion q path fref st).1) := by
  obtain ⟨l1, hopt1, -⟩ := nqDefaults_options q
  rw [normQuestion]
  rw [show nqStep3 path fref (nqDefaults q,
        nqTypeCheck (nqDefaults q) path fref (nqHardRequired q path fref st)) =
      (nqDefaults q, nqTypeCheck (nqDefaults q) path fref (nqHardRequired q path fref st))
    from nqOptionsArray_on_arr _ path fref _ l1 hopt1]
  have hstep4 : nqStep4 path fref (nqDefaults q,
      nqTypeCheck (nqDefaults q) path fref (nqHardRequired q path fref st)) =
    nqOptionsMustBeEmpty (nqDefaults q) path fref
      (nqTypeCheck (nqDefaults q) path fref (nqHardRequired q path fref st)) := rfl
  rw [hstep4]
  have hstep5 : ∀ p : List (String × Json) × NormState,
      (nqStep5 path fref p).1 =
        (nqMatrixRowsCols p.1 path fref (nqOptionsRequired p.1 path fref p.2)).1 :=
    fun p => rfl
  constructor
  · intro hty
    rw [hstep5] at hty ⊢
    rw [nqMatrixRowsCols_opts]
    apply nqOptionsMustBeEmpty_post
    rw [nqMatrixRowsCols_qtype, nqOptionsMustBeEmpty_qtype] at hty
    exact hty
  · intro hm
    rw [hstep5] at hm ⊢
    rw [nqMatrixRowsCols_qtype] at hm
    exact nqMatrixRowsCols_post _ path fref _ hm

/-- Every dict question in the output of the questions walk went through
`norm_question` and therefore satisfies `questionOk`. -/
theorem vqbGo_ok (basePath : String) (fref : List (String × Json)) :
    ∀ (qs : List Json) (i : Nat) (st : NormState) (res : List Json × NormState),
      vqbGo basePath fref qs i st = .ok res →
      ∀ qj ∈ res.1, ∀ q, qj = .obj q → questionOk q := by
  intro qs
  induction qs with
  | nil =>
      intro i st res h qj hm
      cases h
      simp at hm
  | cons qj0 rest ih =>
      intro i st res h qj hm q hq
      cases qj0 with
      | obj q0 =>
          rw [vqbGo] at h
          split at h
          · split at h
            · dsimp only [] at h
              split at h
              · cases h
              · rename_i rest2 st3 heq
                cases h
                rcases List.mem_cons.mp hm with h0 | h0
                · rw [h0] at hq
                  injection hq with hq2
                  subst hq2
                  exact normQuestion_questionOk q0 _ _ st
                · exact ih _ _ _ heq _ h0 q hq
            · dsimp only [] at h
              split at h
              · cases h
              · rename_i rest2 st3 heq
                cases h
                rcases List.mem_cons.mp hm with h0 | h0
                · rw [h0] at hq
                  injection hq with hq2
                  subst hq2
                  exact normQuestion_questionOk q0 _ _ st
                · exact ih _ _ _ heq _ h0 q hq
          · cases h
      | null =>
          rw [vqbGo] at h
          split at h
          · cases h
          · rename_i rest2 st3 heq
            cases h
            rcases List.mem_cons.mp hm with h0 | h0
            · rw [h0] at hq; cases hq
            · exact ih _ _ _ heq _ h0 q hq
          intro q2 hc
          cases hc
      | bool b =>
          rw [vqbGo] at h
          split at h
          · cases h
          · rename_i rest2 st3 heq
            cases h
            rcases List.mem_cons.mp hm with h0 | h0
            · rw [h0] at hq; cases hq
            · exact ih _ _ _ heq _ h0 q hq
          intro q2 hc
          cases hc
      | num n =>
          rw [vqbGo] at h
          split at h
          · cases h
          · rename_i rest2 st3 heq
            cases h
            rcases List.mem_cons.mp hm with h0 | h0
            · rw [h0] at hq; cases hq
            · exact ih _ _ _ heq _ h0 q hq
          intro q2 hc
          cases hc
      | str t =>
          rw [vqbGo] at h
          split at h
          · cases h
          · rename_i rest2 st3 heq
            cases h
            rcases List.mem_cons.mp hm with h0 | h0
            · rw [h0] at hq; cases hq
            · exact ih _ _ _ heq _ h0 q hq
          intro q2 hc
          cases hc
      | arr xs =>
          rw [vqbGo] at h
          split at h
          · cases h
          · rename_i rest2 st3 heq
            cases h
            rcases List.mem_cons.mp hm with h0 | h0
            · rw [h0] at hq; cases hq
            · exact ih _ _ _ heq _ h0 q hq
          intro q2 hc
          cases hc

theorem objHasKey_eq_isSome (fs : List (String × Json)) (k : String) :
    Json.objHasKey fs k = (Json.objGet? fs k).isSome := by
  unfold Json.objHasKey Json.objGet?
  cases fs.find? (fun p => p.1 = k) <;> rfl

theorem objGet_of_getD_arr (fs : List (String × Json)) (k : String) (qs : List Json)
    (h : Json.objGetD fs k .null = .arr qs) :
    Json.objGet? fs k = some (.arr qs) ∧ Json.objHasKey fs k = true := by
  unfold Json.objGetD at h
  rw [objHasKey_eq_isSome]
  cases hf : Json.objGet? fs k with
  | none => rw [hf] at h; cases h
  | some v =>
      rw [hf] at h
      simp only [Option.getD] at h
      subst h
      exact ⟨rfl, rfl⟩

theorem sectionQuestionList_congr {s s2 : Json} {key : String}
    (h : jsonTopGet s key = jsonTopGet s2 key) :
    sectionQuestionList s key = sectionQuestionList s2 key := by
  unfold sectionQuestionList
  rw [h]

theorem mainQuestionLists_congr {s s2 : Json}
    (h : jsonTopGet s "MAIN_SECTION" = jsonTopGet s2 "MAIN_SECTION") :
    mainQuestionLists s = mainQuestionLists s2 := by
  unfold mainQuestionLists mainSubSections
  rw [h]

theorem topKeyGo_all_present (survey : Json) (ks : List String) :
    ∀ st : NormState, (∀ k ∈ ks, pyContains survey k = .ok true) →
    topKeyGo survey ks st = .ok st := by
  induction ks with
  | nil => intro st _; rfl
  | cons k rest ih =>
      intro st h
      rw [topKeyGo, h k (List.mem_cons_self k rest)]
      show topKeyGo survey rest st = .ok st
      exact ih st (fun k2 hk2 => h k2 (List.mem_cons_of_mem k hk2))

/-- The questions block only returns arrays whose dict elements were
normalized, so they all satisfy `questionOk`. -/
theorem validateQuestionsBlock_ok (questions : Json) (bp : String)
    (fref : List (String × Json)) (st : NormState) (res : Json × NormState)
    (h : validateQuestionsBlock questions bp fref st = .ok res) :
    ∀ qj ∈ questionElems (some res.1), ∀ q, qj = .obj q → questionOk q := by
  intro qj hm q hq
  cases questions with
  | arr qs =>
      rw [validateQuestionsBlock] at h
      split at h
      · cases h
      · rename_i l st2 heq
        cases h
        exact vqbGo_ok bp fref qs 0 st (l, st2) heq qj hm q hq
  | obj fs2 =>
      rw [validateQuestionsBlock] at h
      cases h
      simp [questionElems] at hm
      intro q2 hc
      cases hc
  | null =>
      rw [validateQuestionsBlock] at h
      cases h
      simp [questionElems] at hm
      intro q2 hc
      cases hc
  | bool b =>
      rw [validateQuestionsBlock] at h
      cases h
      simp [questionElems] at hm
      intro q2 hc
      cases hc
  | num n =>
      rw [validateQuestionsBlock] at h
      cases h
      simp [questionElems] at hm
      intro q2 hc
      cases hc
  | str t =>
      rw [validateQuestionsBlock] at h
      cases h
      simp [questionElems] at hm
      intro q2 hc
      cases hc

/-- Every question of every subsection returned by the MAIN_SECTION walk
satisfies `questionOk`. -/
theorem ssGo_ok : ∀ (sss : List Json) (i : Nat) (seenSS : List Json) (st : NormState)
    (res : List Json × List Json × NormState),
    ssGo sss i seenSS st = .ok res →
    ∀ ssj ∈ res.1, ∀ qj ∈ subQuestions ssj, ∀ q, qj = .obj q → questionOk q := by
  intro sss
  induction sss with
  | nil =>
      intro i seenSS st res h ssj hm
      cases h
      simp at hm
  | cons ssj0 rest ih =>
      intro i seenSS st res h ssj hm qj hqm q hq
      cases ssj0 with
      | obj ss =>
          rw [ssGo] at h
          split at h
          · cases h
          · rename_i seen1 st1 heq1
            split at h
            · cases h
            · rename_i qs2 st2 heq2
              split at h
              · cases h
              · rename_i rest2 seen2 st3 heq3
                cases h
                rcases List.mem_cons.mp hm with h0 | h0
                · rw [h0] at hqm
                  rw [updateIfPresent] at hqm
                  by_cases hk : Json.objHasKey ss "questions" = true
                  · rw [if_pos hk] at hqm
                    rw [show subQuestions (.obj (Json.objSet ss "questions" qs2)) =
                        questionElems (Json.objGet? (Json.objSet ss "questions" qs2)
                          "questions") from rfl,
                      objGet_objSet_self] at hqm
                    exact validateQuestionsBlock_ok _ _ _ _ (qs2, st2) heq2 qj hqm q hq
                  · rw [if_neg hk] at hqm
                    rw [show subQuestions (.obj ss) =
                        questionElems (Json.objGet? ss "questions") from rfl,
                      objGet_none_of_not_hasKey ss "questions"
                        (by simpa using hk)] at hqm
                    simp [questionElems] at hqm
                · exact ih _ _ _ _ heq3 ssj h0 qj hqm q hq
      | null =>
          rw [ssGo] at h
          split at h
          · cases h
          · rename_i rest2 seen2 st3 heq3
            cases h
            rcases List.mem_cons.mp hm with h0 | h0
            · rw [h0] at hqm; simp [subQuestions] at hqm
            · exact ih _ _ _ _ heq3 ssj h0 qj hqm q hq
          intro q2 hc
          cases hc
      | bool b =>
          rw [ssGo] at h
          split at h
          · cases h
          · rename_i rest2 seen2 st3 heq3
            cases h
            rcases List.mem_cons.mp hm with h0 | h0
            · rw [h0] at hqm; simp [subQuestions] at hqm
            · exact ih _ _ _ _ heq3 ssj h0 qj hqm q hq
          intro q2 hc
          cases hc
      | num n =>
          rw [ssGo] at h
          split at h
          · cases h
          · rename_i rest2 seen2 st3 heq3
            cases h
            rcases List.mem_cons.mp hm with h0 | h0
            · rw [h0] at hqm; simp [subQuestions] at hqm
            · exact ih _ _ _ _ heq3 ssj h0 qj hqm q hq
          intro q2 hc
          cases hc
      | str t =>
          rw [ssGo] at h
          split at h
          · cases h
          · rename_i rest2 seen2 st3 heq3
            cases h
            rcases List.mem_cons.mp hm with h0 | h0
            · rw [h0] at hqm; simp [subQuestions] at hqm
            · exact ih _ _ _ _ heq3 ssj h0 qj hqm q hq
          intro q2 hc
          cases hc
      | arr xs =>
          rw [ssGo] at h
          split at h
          · cases h
          · rename_i rest2 seen2 st3 heq3
            cases h
            rcases List.mem_cons.mp hm with h0 | h0
            · rw [h0] at hqm; simp [subQuestions] at hqm
            · exact ih _ _ _ _ heq3 ssj h0 qj hqm q hq
          intro q2 hc
          cases hc

theorem jsonTopGet_obj (fs : List (String × Json)) (k : String) :
    jsonTopGet (.obj fs) k = Json.objGet? fs k := rfl

theorem sectionQuestionList_objSet (fs : List (String × Json)) (key : String) (v : Json) :
    sectionQuestionList (.obj (Json.objSet fs key v)) key = subQuestions v := by
  unfold sectionQuestionList
  rw [jsonTopGet_obj, objGet_objSet_self]

/-- SCREENER / DEMOGRAPHICS processing: all questions of the processed section
satisfy `questionOk`, and the other top-level keys are untouched. -/
theorem processSection_ok (s : Json) (key basePath : String) (st : NormState)
    (s2 : Json) (st2 : NormState) (h : processSection s key basePath st = .ok (s2, st2)) :
    (∀ qj ∈ sectionQuestionList s2 key, ∀ q, qj = .obj q → questionOk q) ∧
    (∀ k, k ≠ key → jsonTopGet s2 k = jsonTopGet s k) := by
  rw [processSection] at h
  split at h
  · cases h
  · rename_i sec heqSec
    split at h
    · cases h
    · rename_i qsv heqQ
      cases sec with
      | obj secfs =>
          rw [show pyDictGet (Json.obj secfs) "questions" =
              Except.ok (Json.objGetD secfs "questions" Json.null) from rfl] at heqQ
          injection heqQ with heqQ1
          subst heqQ1
          split at h
          · cases h
          · rename_i qs2 stv heqV
            split at h
            · rename_i fs
              injection h with h1
              injection h1 with hA hB
              subst hA
              subst hB
              constructor
              · intro qj hm q hq
                rw [sectionQuestionList_objSet] at hm
                rw [updateIfPresent] at hm
                by_cases hk : Json.objHasKey secfs "questions" = true
                · rw [if_pos hk] at hm
                  rw [show subQuestions (.obj (Json.objSet secfs "questions" qs2)) =
                      questionElems (Json.objGet? (Json.objSet secfs "questions" qs2)
                        "questions") from rfl,
                    objGet_objSet_self] at hm
                  exact validateQuestionsBlock_ok _ _ _ _ (qs2, stv) heqV qj hm q hq
                · rw [if_neg hk] at hm
                  rw [show subQuestions (.obj secfs) =
                      questionElems (Json.objGet? secfs "questions") from rfl,
                    objGet_none_of_not_hasKey secfs "questions" (by simpa using hk)] at hm
                  simp [questionElems] at hm
              · intro k hk
                rw [jsonTopGet_obj, jsonTopGet_obj, objGet_objSet_ne fs (Ne.symm hk)]
            · cases h
      | null =>
          rw [show pyDictGet Json.null "questions" =
              (Except.error .attributeError : Except PyErr Json) from rfl] at heqQ
          cases heqQ
      | bool b =>
          rw [show pyDictGet (Json.bool b) "questions" =
              (Except.error .attributeError : Except PyErr Json) from rfl] at heqQ
          cases heqQ
      | num n =>
          rw [show pyDictGet (Json.num n) "questions" =
              (Except.error .attributeError : Except PyErr Json) from rfl] at heqQ
          cases heqQ
      | str t =>
          rw [show pyDictGet (Json.str t) "questions" =
              (Except.error .attributeError : Except PyErr Json) from rfl] at heqQ
          cases heqQ
      | arr xs =>
          rw [show pyDictGet (Json.arr xs) "questions" =
              (Except.error .attributeError : Except PyErr Json) from rfl] at heqQ
          cases heqQ

theorem pyGetItemStr_ok (v : Json) (k : String) (x : Json)
    (h : pyGetItemStr v k = .ok x) :
    ∃ fs, v = .obj fs ∧ Json.objGet? fs k = some x := by
  cases v with
  | obj fs =>
      refine ⟨fs, rfl, ?_⟩
      rw [pyGetItemStr] at h
      split at h
      · rename_i y hy
        injection h with h1
        subst h1
        exact hy
      · cases h
  | null =>
      rw [show pyGetItemStr Json.null k = (Except.error .typeError : Except PyErr Json)
        from rfl] at h
      cases h
  | bool b =>
      rw [show pyGetItemStr (Json.bool b) k = (Except.error .typeError : Except PyErr Json)
        from rfl] at h
      cases h
  | num n =>
      rw [show pyGetItemStr (Json.num n) k = (Except.error .typeError : Except PyErr Json)
        from rfl] at h
      cases h
  | str t =>
      rw [show pyGetItemStr (Json.str t) k = (Except.error .typeError : Except PyErr Json)
        from rfl] at h
      cases h
  | arr xs =>
      rw [show pyGetItemStr (Json.arr xs) k = (Except.error .typeError : Except PyErr Json)
        from rfl] at h
      cases h

theorem pyDictGet_ok (v : Json) (k : String) (x : Json) (h : pyDictGet v k = .ok x) :
    ∃ fs, v = .obj fs ∧ Json.objGetD fs k .null = x := by
  cases v with
  | obj fs =>
      refine ⟨fs, rfl, ?_⟩
      rw [show pyDictGet (Json.obj fs) k = Except.ok (Json.objGetD fs k Json.null)
        from rfl] at h
      injection h with h1
  | null =>
      rw [show pyDictGet Json.null k = (Except.error .attributeError : Except PyErr Json)
        from rfl] at h
      cases h
  | bool b =>
      rw [show pyDictGet (Json.bool b) k = (Except.error .attributeError : Except PyErr Json)
        from rfl] at h
      cases h
  | num n =>
      rw [show pyDictGet (Json.num n) k = (Except.error .attributeError : Except PyErr Json)
        from rfl] at h
      cases h
  | str t =>
      rw [show pyDictGet (Json.str t) k = (Except.error .attributeError : Except PyErr Json)
        from rfl] at h
      cases h
  | arr xs =>
      rw [show pyDictGet (Json.arr xs) k = (Except.error .attributeError : Except PyErr Json)
        from rfl] at h
      cases h

theorem mainSubSections_objSet (fs mm : List (String × Json)) :
    mainSubSections (.obj (Json.objSet fs "MAIN_SECTION" (.obj mm))) =
      questionElems (Json.objGet? mm "sub_sections") := by
  unfold mainSubSections
  rw [jsonTopGet_obj, objGet_objSet_self]

theorem mainSubSections_obj (fs mfs : List (String × Json))
    (hget : Json.objGet? fs "MAIN_SECTION" = some (.obj mfs)) :
    mainSubSections (.obj fs) = questionElems (Json.objGet? mfs "sub_sections") := by
  unfold mainSubSections
  rw [jsonTopGet_obj, hget]

/-- MAIN_SECTION processing: all subsection questions of the output satisfy
`questionOk`, and the other top-level keys are untouched. -/
theorem processMain_ok (s : Json) (st : NormState) (s2 : Json) (st2 : NormState)
    (h : processMain s st = .ok (s2, st2)) :
    (∀ qj ∈ mainQuestionLists s2, ∀ q, qj = .obj q → questionOk q) ∧
    (∀ k, k ≠ "MAIN_SECTION" → jsonTopGet s2 k = jsonTopGet s k) := by
  rw [processMain] at h
  split at h
  · cases h
  · rename_i main heqSec
    split at h
    · cases h
    · rename_i subsv heqQ
      obtain ⟨mfs, hmain, hsubv⟩ := pyDictGet_ok main "sub_sections" subsv heqQ
      subst hmain
      split at h
      · rename_i sss
        split at h
        · cases h
        · rename_i sss2 seen2 st3 heqGo
          split at h
          · rename_i fs
            injection h with h1
            injection h1 with hA hB
            subst hA
            subst hB
            have hk : Json.objHasKey mfs "sub_sections" = true :=
              (objGet_of_getD_arr mfs "sub_sections" sss hsubv).2
            constructor
            · intro qj hm q hq
              rw [show updateIfPresent (Json.obj mfs) "sub_sections" (Json.arr sss2) =
                  if Json.objHasKey mfs "sub_sections" then
                    Json.obj (Json.objSet mfs "sub_sections" (Json.arr sss2))
                  else Json.obj mfs from rfl, if_pos hk] at hm
              rw [show mainQuestionLists (Json.obj (Json.objSet fs "MAIN_SECTION"
                  (Json.obj (Json.objSet mfs "sub_sections" (Json.arr sss2))))) =
                  (mainSubSections (Json.obj (Json.objSet fs "MAIN_SECTION"
                    (Json.obj (Json.objSet mfs "sub_sections" (Json.arr sss2)))))).flatMap
                  subQuestions from rfl,
                mainSubSections_objSet, objGet_objSet_self,
                show questionElems (some (Json.arr sss2)) = sss2 from rfl] at hm
              obtain ⟨ssj, hss, hqm⟩ := List.mem_flatMap.mp hm
              exact ssGo_ok sss 0 [] st (sss2, seen2, st3) heqGo ssj hss qj hqm q hq
            · intro k hk2
              rw [jsonTopGet_obj, jsonTopGet_obj, objGet_objSet_ne fs (Ne.symm hk2)]
          · cases h
      · rename_i hne
        injection h with h1
        injection h1 with hA hB
        subst hA
        subst hB
        obtain ⟨fs, hs, hget⟩ := pyGetItemStr_ok s "MAIN_SECTION" (.obj mfs) heqSec
        subst hs
        constructor
        · intro qj hm q hq
          rw [show mainQuestionLists (Json.obj fs) =
              (mainSubSections (Json.obj fs)).flatMap subQuestions from rfl,
            mainSubSections_obj fs mfs hget] at hm
          cases hsv : Json.objGet? mfs "sub_sections" with
          | none =>
              rw [hsv] at hm
              simp [questionElems] at hm
          | some v =>
              have hv : v = subsv := by
                rw [Json.objGetD, hsv] at hsubv
                exact hsubv
              subst hv
              rw [hsv] at hm
              cases v with
              | arr xs => exact absurd rfl (hne xs)
              | null => simp [questionElems] at hm
              | bool b => simp [questionElems] at hm
              | num n => simp [questionElems] at hm
              | str t => simp [questionElems] at hm
              | obj fs2 => simp [questionElems] at hm
        · intro k hk2
          rfl

/-- C1: for a survey whose required top-level keys are all present, every
question dict in the document returned by validate_and_normalise satisfies
the (amended) shape invariant `questionOk`: open_ended / matrix /
numeric_input questions have empty options (stimulus_display options are NOT
cleared), and matrix questions have non-null rows and columns (possibly
coerced to the empty array, not necessarily non-empty). -/
theorem C1_normalised_question_shapes (survey : Json)
    (hkeys : ∀ k ∈ requiredTopLevelKeys, pyContains survey k = .ok true)
    (res : Json × List ValidationIssue)
    (h : validateAndNormalise survey = .ok res) :
    ∀ qj ∈ collectQuestions res.1, ∀ q, qj = .obj q → questionOk q := by
  rw [validateAndNormalise] at h
  split at h
  · rename_i e heq0
    rw [topKeyGo_all_present survey requiredTopLevelKeys NormState.initial hkeys] at heq0
    cases heq0
  · rename_i st0 heq0
    rw [topKeyGo_all_present survey requiredTopLevelKeys NormState.initial hkeys] at heq0
    injection heq0 with h0
    subst h0
    rw [if_neg (by decide)] at h
    split at h
    · cases h
    · rename_i s1 st1 heq1
      split at h
      · cases h
      · rename_i s2 st2 heq2
        split at h
        · cases h
        · rename_i s3 st3 heq3
          split at h
          · cases h
          · rename_i st4 heq4
            split at h
            · cases h
            · rename_i st5 heq5
              injection h with h1
              subst h1
              show ∀ qj ∈ collectQuestions s3, ∀ q, qj = .obj q → questionOk q
              intro qj hm q hq
              rw [collectQuestions] at hm
              rcases List.mem_append.mp hm with hm1 | hmD
              · rcases List.mem_append.mp hm1 with hA | hB
                · rw [sectionQuestionList_congr
                      ((processSection_ok s2 "DEMOGRAPHICS" "/DEMOGRAPHICS/questions" st2
                        s3 st3 heq3).2 "SCREENER" (by decide))] at hA
                  rw [sectionQuestionList_congr
                      ((processMain_ok s1 st1 s2 st2 heq2).2 "SCREENER" (by decide))] at hA
                  exact (processSection_ok survey "SCREENER" "/SCREENER/questions"
                    NormState.initial s1 st1 heq1).1 qj hA q hq
                · rw [mainQuestionLists_congr
                      ((processSection_ok s2 "DEMOGRAPHICS" "/DEMOGRAPHICS/questions" st2
                        s3 st3 heq3).2 "MAIN_SECTION" (by decide))] at hB
                  exact (processMain_ok s1 st1 s2 st2 heq2).1 qj hB q hq
              · exact (processSection_ok s2 "DEMOGRAPHICS" "/DEMOGRAPHICS/questions" st2
                  s3 st3 heq3).1 qj hmD q hq

/-- C1 counterexample: on `c1x` the normalizer keeps the non-empty options of
the stimulus_display question, and gives the rows-less matrix question rows
equal to the EMPTY array, refuting the claim that stimulus_display options
end up empty and matrix rows end up non-empty. -/
theorem C1_counterexample :
    ∃ out issues, validateAndNormalise c1x = .ok (out, issues) ∧
      collectQuestions out = [.obj c1xStimQ, .obj c1xMatQ] ∧
      Json.objGetD c1xStimQ "question_type" .null = .str "stimulus_display" ∧
      Json.objGetD c1xStimQ "options" .null = .arr [.str "x"] ∧
      Json.objGetD c1xMatQ "question_type" .null = .str "matrix" ∧
      Json.objGetD c1xMatQ "rows" .null = .arr [] :=
  ⟨_, _, rfl, rfl, rfl, rfl, rfl, rfl⟩

/-- Witness: the C1 theorem applied to the concrete survey `c1w` yields the
shape invariant for its normalized matrix question. -/
theorem C1_normalised_question_shapes_witness : questionOk c1wQ :=
  C1_normalised_question_shapes c1w
    (by intro k hk; fin_cases hk <;> rfl)
    (c1wOut, []) rfl (.obj c1wQ)
    (by exact List.Mem.head _)
    c1wQ rfl

/-- C8: for every question-id list containing MS1_Q2, the routing index built
for the rule \{rule_id: R1, condition: SCR_Q1 = 'No', action: Skip MS1_Q2\}
maps MS1_Q2 to an entry whose skipped_by_rules is exactly ["R1"] (and that is
the only entry). -/
theorem C8_skip_rule_indexed (qids : List String) (h : "MS1_Q2" ∈ qids) :
    buildRoutingIndex c8Flow qids = [("MS1_Q2", ⟨[], ["R1"], [], none⟩)] := by
  have hc : qids.contains "MS1_Q2" = true := List.elem_iff.mpr h
  have hfil : List.filter (fun t => qids.contains t) ["MS1_Q2"] = ["MS1_Q2"] := by
    simp [List.filter_cons, List.filter_nil, hc]
    exact h
  show finalizeIndex ((List.filter (fun t => qids.contains t) ["MS1_Q2"]).foldl
      (fun idx qid => entModify (ensureEntry idx qid) qid
        (fun e => bucketAppend e .skipped "R1")) []) =
    [("MS1_Q2", ⟨[], ["R1"], [], none⟩)]
  rw [hfil]
  rfl

/-- Witness: the C8 theorem applied to the concrete qid list
[SCR_Q1, MS1_Q2]. -/
theorem C8_skip_rule_indexed_witness :
    buildRoutingIndex c8Flow ["SCR_Q1", "MS1_Q2"] =
      [("MS1_Q2", ⟨[], ["R1"], [], none⟩)] :=
  C8_skip_rule_indexed ["SCR_Q1", "MS1_Q2"] (List.Mem.tail _ (List.Mem.head _))

/-- C2: SEQ_001 is not idempotent. On a subsection ordered
[stimulus A, other, stimulus B] the first pass moves B to the front
(one auto_fix); the SECOND pass then finds A out of place and emits another
auto_fix, moving A back to the front; a third pass restores the second
state again: the fix oscillates forever, refuting the claim that a second
run produces zero auto_fix results. -/
theorem C2_seq001_oscillates :
    (checkStimulusBeforeEvaluation c2Subs).1 =
      [⟨"MS1", [c2StimB, c2StimA, c2Mid]⟩] ∧
    ((checkStimulusBeforeEvaluation c2Subs).2.filter
      (fun r => r.severity == "auto_fix")).length = 1 ∧
    (checkStimulusBeforeEvaluation [⟨"MS1", [c2StimB, c2StimA, c2Mid]⟩]).1 =
      [⟨"MS1", [c2StimA, c2StimB, c2Mid]⟩] ∧
    ((checkStimulusBeforeEvaluation [⟨"MS1", [c2StimB, c2StimA, c2Mid]⟩]).2.filter
      (fun r => r.severity == "auto_fix")).length = 1 ∧
    (checkStimulusBeforeEvaluation [⟨"MS1", [c2StimA, c2StimB, c2Mid]⟩]).1 =
      [⟨"MS1", [c2StimB, c2StimA, c2Mid]⟩] :=
  ⟨rfl, rfl, rfl, rfl, rfl⟩

theorem npsCheck1_of_ne (sid : String) (q : SeqQuestion)
    (h : ¬ q.options.length = 11) : npsCheck1 sid q = [npsScaleError sid q] := by
  unfold npsCheck1
  rw [if_pos]
  simpa using h

theorem npsOne_ok_mem (subs : List SeqSubsection) (sid : String) (q : SeqQuestion)
    (hlen : ¬ q.options.length = 11) (rs : List SeqResult)
    (h : npsOne subs sid q = .ok rs) : npsScaleError sid q ∈ rs := by
  rw [npsOne] at h
  split at h
  · cases h
    rw [npsCheck1_of_ne sid q hlen]
    exact List.mem_singleton.mpr rfl
  · split at h
    · cases h
      rw [npsCheck1_of_ne sid q hlen]
      exact List.mem_singleton.mpr rfl
    · split at h
      · cases h
      · cases h
        refine List.mem_append.mpr (Or.inl ?_)
        rw [npsCheck1_of_ne sid q hlen]
        exact List.mem_singleton.mpr rfl

theorem npsLoop_ok_mem (subs : List SeqSubsection) (sid : String) (q : SeqQuestion)
    (hlen : ¬ q.options.length = 11) :
    ∀ (pairs : List (String × SeqQuestion)), (sid, q) ∈ pairs →
    ∀ rs, npsLoop subs pairs = .ok rs → npsScaleError sid q ∈ rs := by
  intro pairs
  induction pairs with
  | nil => intro hm; cases hm
  | cons p rest ih =>
      intro hm rs h
      rw [npsLoop] at h
      split at h
      · cases h
      · rename_i rs1 heq1
        split at h
        · cases h
        · rename_i rs2 heq2
          cases h
          rcases List.mem_cons.mp hm with h0 | h0
          · subst h0
            exact List.mem_append.mpr (Or.inl (npsOne_ok_mem subs sid q hlen rs1 heq1))
          · exact List.mem_append.mpr (Or.inr (ih h0 rs2 heq2))

/-- C3: for every survey and brief whose skills list contains "nps-csat",
every NPS-pattern question with an options list not of length 11 yields a
METH_005 result with severity error and the 11-point message. (This is the
amended claim: the result is methodology-level METH_005, not CORE-level,
and it is emitted only under the nps-csat skill gate.) -/
theorem C3_meth005_error
    (skills : List String) (hsk : "nps-csat" ∈ skills)
    (subs : List SeqSubsection) (demo : List SeqQuestion)
    (sid : String) (q : SeqQuestion)
    (hq : (sid, q) ∈ npsQuestions subs)
    (hlen : ¬ q.options.length = 11)
    (results : List SeqResult)
    (hok : runNpsCsatIfSkilled skills subs demo = .ok results) :
    npsScaleError sid q ∈ results ∧
    (npsScaleError sid q).check_id = "METH_005" ∧
    (npsScaleError sid q).severity = "error" ∧
    (npsScaleError sid q).message =
      "NPS question must use 0-10 scale (11 points), found " ++
        Nat.repr q.options.length ++ " options" := by
  rw [runNpsCsatIfSkilled, if_pos (List.elem_iff.mpr hsk)] at hok
  rw [checkNpsCsat] at hok
  split at hok
  · cases hok
  · rename_i rs1 heq1
    cases hok
    exact ⟨List.mem_append.mpr (Or.inl (List.mem_append.mpr (Or.inl
      (npsLoop_ok_mem subs sid q hlen _ hq rs1 heq1)))), rfl, rfl, rfl⟩

/-- C3 counterexample: with a brief without the nps-csat skill the 5-option
NPS question produces NO validation result at all, and even with the skill
the emitted result is METH_005, which is not a CORE-level check id. -/
theorem C3_counterexample :
    runNpsCsatIfSkilled [] c3Subs [] = .ok [] ∧
    checkNpsCsat c3Subs [] =
      .ok [npsScaleError "MS1" c3NpsQ, npsFollowupWarn "MS1" c3NpsQ] ∧
    (npsScaleError "MS1" c3NpsQ).check_id = "METH_005" ∧
    pyStartsWith (npsScaleError "MS1" c3NpsQ).check_id "CORE" = false :=
  ⟨rfl, rfl, rfl, rfl⟩

/-- Witness: the C3 theorem applied to the concrete survey c3Subs with the
nps-csat skill enabled. -/
theorem C3_meth005_error_witness :
    npsScaleError "MS1" c3NpsQ ∈
      [npsScaleError "MS1" c3NpsQ, npsFollowupWarn "MS1" c3NpsQ] ∧
    (npsScaleError "MS1" c3NpsQ).check_id = "METH_005" ∧
    (npsScaleError "MS1" c3NpsQ).severity = "error" ∧
    (npsScaleError "MS1" c3NpsQ).message =
      "NPS question must use 0-10 scale (11 points), found " ++
        Nat.repr c3NpsQ.options.length ++ " options" :=
  C3_meth005_error ["nps-csat"] (List.Mem.head _) c3Subs [] "MS1" c3NpsQ
    (List.Mem.head _) (by decide)
    [npsScaleError "MS1" c3NpsQ, npsFollowupWarn "MS1" c3NpsQ] rfl

theorem getMaxPriorityRank_ge_one (s : LoiSurvey) (lvl : String) :
    1 ≤ getMaxPriorityRank s lvl := by
  unfold getMaxPriorityRank
  have key : ∀ (l : List LoiQuestion) (acc : Int),
      acc ≤ l.foldl (fun m q =>
        if q.priority == some lvl then max m (q.priority_rank.getD 1) else m) acc := by
    intro l
    induction l with
    | nil => intro acc; exact le_refl _
    | cons q rest ih =>
        intro acc
        refine le_trans ?_ (ih _)
        show acc ≤ if (q.priority == some lvl) = true then max acc (q.priority_rank.getD 1) else acc
        split
        · exact le_max_left _ _
        · exact le_refl _
  exact key _ 1

theorem pyRound_ge (x : ℚ) : ⌊x⌋ ≤ pyRound x := by
  unfold pyRound
  split
  · exact le_refl _
  · split
    · omega
    · split
      · exact le_refl _
      · omega

theorem pyRound_le (x : ℚ) : pyRound x ≤ ⌊x⌋ + 1 := by
  unfold pyRound
  split
  · omega
  · split
    · exact le_refl _
    · split
      · omega
      · exact le_refl _

theorem pyRound_eq_add_one_of_half_lt (x : ℚ) (h : 1/2 < x - ⌊x⌋) :
    pyRound x = ⌊x⌋ + 1 := by
  unfold pyRound
  rw [if_neg (by linarith), if_pos h]

theorem pyRound_mono {x y : ℚ} (h : x ≤ y) : pyRound x ≤ pyRound y := by
  have hf : ⌊x⌋ ≤ ⌊y⌋ := Int.floor_le_floor h
  rcases lt_or_eq_of_le hf with hlt | heq
  · calc pyRound x ≤ ⌊x⌋ + 1 := pyRound_le x
      _ ≤ ⌊y⌋ := by omega
      _ ≤ pyRound y := pyRound_ge y
  · have hfr : x - ⌊x⌋ ≤ y - ⌊y⌋ := by
      rw [← heq]
      exact sub_le_sub_right h _
    by_cases h1 : x - ⌊x⌋ < 1/2
    · rw [show pyRound x = ⌊x⌋ from by rw [pyRound, if_pos h1]]
      exact hf.trans (pyRound_ge y)
    · push_neg at h1
      rcases lt_or_eq_of_le h1 with hgt | heq2
      · have hy : 1/2 < y - ⌊y⌋ := lt_of_lt_of_le hgt hfr
        rw [pyRound_eq_add_one_of_half_lt y hy]
        calc pyRound x ≤ ⌊x⌋ + 1 := pyRound_le x
          _ ≤ ⌊y⌋ + 1 := by omega
      · have hfr2 : (1 : ℚ)/2 ≤ y - ⌊y⌋ := by rw [heq2]; exact hfr
        rcases lt_or_eq_of_le hfr2 with hgt2 | heq3
        · rw [pyRound_eq_add_one_of_half_lt y hgt2]
          calc pyRound x ≤ ⌊x⌋ + 1 := pyRound_le x
            _ ≤ ⌊y⌋ + 1 := by omega
        · have hx2 : pyRound x = if ⌊x⌋ % 2 = 0 then ⌊x⌋ else ⌊x⌋ + 1 := by
            rw [pyRound, if_neg (by linarith), if_neg (by linarith)]
          have hy2 : pyRound y = if ⌊y⌋ % 2 = 0 then ⌊y⌋ else ⌊y⌋ + 1 := by
            rw [pyRound, if_neg (by linarith), if_neg (by linarith)]
          rw [hx2, hy2, heq]

theorem shouldShow_mono (s : LoiSurvey) (priority : String) (rank : Int)
    {p1 p2 : Int} (h : p1 ≤ p2)
    (hs : shouldShow s p1 priority rank = true) :
    shouldShow s p2 priority rank = true := by
  unfold shouldShow at hs ⊢
  by_cases hr : (priority == "required") = true
  · rw [if_pos hr]
  · rw [if_neg hr] at hs ⊢
    by_cases hrec : (priority == "recommended") = true
    · rw [if_pos hrec] at hs ⊢
      by_cases hp1 : p1 ≤ 30
      · rw [if_pos hp1] at hs; cases hs
      · rw [if_neg hp1] at hs
        have hnp2 : ¬ p2 ≤ 30 := by omega
        rw [if_neg hnp2]
        by_cases hq2 : p2 ≥ 70
        · rw [if_pos hq2]
        · have hq1 : ¬ p1 ≥ 70 := by omega
          rw [if_neg hq1] at hs
          rw [if_neg hq2]
          rw [decide_eq_true_eq] at hs ⊢
          refine hs.trans (max_le_max (le_refl 1) (pyRound_mono ?_))
          have hm : (0 : ℚ) ≤ (getMaxPriorityRank s "recommended" : ℚ) := by
            have h1 := getMaxPriorityRank_ge_one s "recommended"
            exact_mod_cast le_trans (by norm_num) h1
          apply mul_le_mul_of_nonneg_right _ hm
          have hp : (p1 : ℚ) ≤ (p2 : ℚ) := by exact_mod_cast h
          linarith
    · by_cases hopt : (priority == "optional") = true
      · rw [if_neg hrec, if_pos hopt] at hs ⊢
        by_cases hp1 : p1 < 70
        · rw [if_pos hp1] at hs; cases hs
        · rw [if_neg hp1] at hs
          have hnp2 : ¬ p2 < 70 := by omega
          rw [if_neg hnp2]
          by_cases hq2 : p2 ≥ 100
          · rw [if_pos hq2]
          · have hq1 : ¬ p1 ≥ 100 := by omega
            rw [if_neg hq1] at hs
            rw [if_neg hq2]
            rw [decide_eq_true_eq] at hs ⊢
            refine hs.trans (max_le_max (le_refl 1) (pyRound_mono ?_))
            have hm : (0 : ℚ) ≤ (getMaxPriorityRank s "optional" : ℚ) := by
              have h1 := getMaxPriorityRank_ge_one s "optional"
              exact_mod_cast le_trans (by norm_num) h1
            apply mul_le_mul_of_nonneg_right _ hm
            have hp : (p1 : ℚ) ≤ (p2 : ℚ) := by exact_mod_cast h
            linarith
      · rw [if_neg hrec, if_neg hopt] at hs ⊢

/-- C4: the visible-question count of the LOI recalculation is monotone in
the slider position, for a fixed survey (fixed priorities, priority_ranks
and user overrides). -/
theorem C4_visible_monotone (s : LoiSurvey) (p1 p2 : Int)
    (h0 : 0 ≤ p1) (h12 : p1 ≤ p2) (h100 : p2 ≤ 100) :
    (calcLoiConfig s p1).visible_questions ≤ (calcLoiConfig s p2).visible_questions := by
  show (getAllQuestions s).countP (fun q => questionVisible s p1 q) ≤
      (getAllQuestions s).countP (fun q => questionVisible s p2 q)
  apply List.countP_mono_left
  intro q hq hv
  show questionVisible s p2 q = true
  rw [questionVisible] at hv ⊢
  by_cases hpin : (q.user_override.getD "none" == "pinned") = true
  · rw [if_pos hpin]
  · rw [if_neg hpin] at hv ⊢
    by_cases hexc : (q.user_override.getD "none" == "excluded") = true
    · rw [if_pos hexc] at hv; cases hv
    · rw [if_neg hexc] at hv ⊢
      exact shouldShow_mono s _ _ h12 hv

/-- Witness: the C4 theorem applied to the concrete survey at positions 40
and 60. -/
theorem C4_visible_monotone_witness :
    (calcLoiConfig c4Survey 40).visible_questions ≤
      (calcLoiConfig c4Survey 60).visible_questions :=
  C4_visible_monotone c4Survey 40 60 (by decide) (by decide) (by decide)

theorem getAllQuestions_applyVisibility (s : LoiSurvey) (pos : Int) :
    getAllQuestions (applyVisibility s pos) =
      (getAllQuestions s).map (visUpdate s pos) := by
  unfold getAllQuestions applyVisibility
  simp [List.map_append, List.map_flatMap, List.flatMap_map]

/-- C10: pin, exclude and reset on a question_id absent from every section
return normally, behave exactly like a plain update_loi_config at the stored
slider position (default 50), change no question's user_override, and return
the freshly recomputed config. -/
theorem C10_override_ops_absent (s : LoiSurvey) (qid : String)
    (h : findQuestion s qid = none) :
    pinQuestion s qid = updateLoiConfig s (storedSlider s) ∧
    excludeQuestion s qid = updateLoiConfig s (storedSlider s) ∧
    resetQuestionOverride s qid = updateLoiConfig s (storedSlider s) ∧
    (getAllQuestions (pinQuestion s qid).1).map (fun q => q.user_override) =
      (getAllQuestions s).map (fun q => q.user_override) ∧
    (pinQuestion s qid).2 = calcLoiConfig s (storedSlider s) := by
  have hnone : ¬ (findQuestion s qid).isSome = true := by rw [h]; simp
  have h1 : pinQuestion s qid = updateLoiConfig s (storedSlider s) := by
    rw [pinQuestion, if_neg hnone]
  have h2 : excludeQuestion s qid = updateLoiConfig s (storedSlider s) := by
    rw [excludeQuestion, if_neg hnone]
  have h3 : resetQuestionOverride s qid = updateLoiConfig s (storedSlider s) := by
    rw [resetQuestionOverride, if_neg hnone]
  refine ⟨h1, h2, h3, ?_, ?_⟩
  · rw [h1]
    show (getAllQuestions (applyVisibility s (storedSlider s))).map
        (fun q => q.user_override) = (getAllQuestions s).map (fun q => q.user_override)
    rw [getAllQuestions_applyVisibility, List.map_map]
    rfl
  · rw [h1]
    rfl

/-- Witness: the C10 theorem applied to the concrete survey and the absent
question id GHOST. -/
theorem C10_override_ops_absent_witness :
    pinQuestion c10Survey "GHOST" = updateLoiConfig c10Survey (storedSlider c10Survey) ∧
    excludeQuestion c10Survey "GHOST" = updateLoiConfig c10Survey (storedSlider c10Survey) ∧
    resetQuestionOverride c10Survey "GHOST" =
      updateLoiConfig c10Survey (storedSlider c10Survey) ∧
    (getAllQuestions (pinQuestion c10Survey "GHOST").1).map (fun q => q.user_override) =
      (getAllQuestions c10Survey).map (fun q => q.user_override) ∧
    (pinQuestion c10Survey "GHOST").2 = calcLoiConfig c10Survey (storedSlider c10Survey) :=
  C10_override_ops_absent c10Survey "GHOST" rfl

end SurveyPlatform

